import Mathlib

/-!
# RivRetrieve-Python — verification of spec claims

Shallow embedding of the RivRetrieve Python package (per-agency river-gauge
data fetchers) used to settle the claims C1..C10 about its natural-language
specification.

Modelling conventions used throughout:
* timestamps are integers (`Int`): day numbers for daily fetchers, hour
  numbers for the Japanese hourly fetcher (24 hours per day);
* numeric observation values are rationals (`ℚ`);
* a Python function that can raise is embedded as `Except PyErr α`;
* `pandas` cell parsing with `errors="coerce"` (to_datetime / to_numeric)
  is embedded as `Option`-valued record fields (`none` = NaT/NaN);
* the network is nondeterministic, so every download result (or the outcome
  of each HTTP request) is an explicit argument of the embedded function;
* a pandas DataFrame of one time-indexed series is a `List (Int × ℚ)`
  (or a per-fetcher record list when extra columns exist).
-/

/-- Python exception kinds that appear in the code paths under study. -/
inductive PyErr
  | valueError (msg : String)
  | nameError (missing : String)
  | attributeError (missing : String)
  | requestError
  | jsonError
  | fileNotFoundError
  | otherError (msg : String)
  deriving DecidableEq, Repr

/-- Truthiness of an optional Python string (`None` and `""` are falsy). -/
def pyTruthy : Option String → Bool
  | none => false
  | some s => !s.isEmpty

namespace constants

/-! Embedding of `rivretrieve/constants.py`: the variable vocabulary is a set
of strings assembled from (quantity, resolution, aggregation) pieces. -/

def GAUGE_ID : String := "gauge_id"
def TIME_INDEX : String := "time"

def DISCHARGE : String := "discharge"
def STAGE : String := "stage"
def _WATER_TEMPERATURE : String := "water-temperature"
def _CATCHMENT_PRECIPITATION : String := "catchment-precipitation"

def DAILY : String := "daily"
def HOURLY : String := "hourly"
def INSTANTANEOUS : String := "instantaneous"

def _MEAN : String := "mean"
def _MIN : String := "min"
def _MAX : String := "max"
def _SUM : String := "sum"

def DISCHARGE_DAILY_MEAN : String := DISCHARGE ++ "_" ++ DAILY ++ "_" ++ _MEAN
def DISCHARGE_DAILY_MAX : String := DISCHARGE ++ "_" ++ DAILY ++ "_" ++ _MAX
def DISCHARGE_DAILY_MIN : String := DISCHARGE ++ "_" ++ DAILY ++ "_" ++ _MIN
def DISCHARGE_HOURLY_MEAN : String := DISCHARGE ++ "_" ++ HOURLY ++ "_" ++ _MEAN
def DISCHARGE_INSTANT : String := DISCHARGE ++ "_" ++ INSTANTANEOUS

def STAGE_DAILY_MEAN : String := STAGE ++ "_" ++ DAILY ++ "_" ++ _MEAN
def STAGE_DAILY_MAX : String := STAGE ++ "_" ++ DAILY ++ "_" ++ _MAX
def STAGE_DAILY_MIN : String := STAGE ++ "_" ++ DAILY ++ "_" ++ _MIN
def STAGE_HOURLY_MEAN : String := STAGE ++ "_" ++ HOURLY ++ "_" ++ _MEAN
def STAGE_INSTANT : String := STAGE ++ "_" ++ INSTANTANEOUS

def WATER_TEMPERATURE_DAILY_MEAN : String := _WATER_TEMPERATURE ++ "_" ++ DAILY ++ "_" ++ _MEAN
def WATER_TEMPERATURE_HOURLY_MEAN : String := _WATER_TEMPERATURE ++ "_" ++ HOURLY ++ "_" ++ _MEAN
def WATER_TEMPERATURE_INSTANT : String := _WATER_TEMPERATURE ++ "_" ++ INSTANTANEOUS

def CATCHMENT_PRECIPITATION_DAILY_SUM : String :=
  _CATCHMENT_PRECIPITATION ++ "_" ++ DAILY ++ "_" ++ _SUM

/-- The module-level assignments of `constants.py`, in source order: every
`NAME = value` the module executes, and nothing else.  In particular there
is no `DISCHARGE_MONTHLY_MEAN`, no unprefixed `WATER_TEMPERATURE`, and no
`WATER_TEMPERATURE_DAILY_MAX`/`_MIN`. -/
def assignedNames : List (String × String) :=
  [("GAUGE_ID", GAUGE_ID), ("TIME_INDEX", TIME_INDEX),
   ("ALTITUDE", "altitude"), ("AREA", "area"), ("COUNTRY", "country"),
   ("LATITUDE", "latitude"), ("LONGITUDE", "longitude"), ("RIVER", "river"),
   ("SOURCE", "source"), ("STATION_NAME", "station_name"),
   ("DISCHARGE", DISCHARGE), ("STAGE", STAGE),
   ("_WATER_TEMPERATURE", _WATER_TEMPERATURE),
   ("_CATCHMENT_PRECIPITATION", _CATCHMENT_PRECIPITATION),
   ("DAILY", DAILY), ("HOURLY", HOURLY), ("INSTANTANEOUS", INSTANTANEOUS),
   ("_MEAN", _MEAN), ("_MIN", _MIN), ("_MAX", _MAX), ("_SUM", _SUM),
   ("DISCHARGE_DAILY_MEAN", DISCHARGE_DAILY_MEAN),
   ("DISCHARGE_DAILY_MAX", DISCHARGE_DAILY_MAX),
   ("DISCHARGE_DAILY_MIN", DISCHARGE_DAILY_MIN),
   ("DISCHARGE_HOURLY_MEAN", DISCHARGE_HOURLY_MEAN),
   ("DISCHARGE_INSTANT", DISCHARGE_INSTANT),
   ("STAGE_DAILY_MEAN", STAGE_DAILY_MEAN),
   ("STAGE_DAILY_MAX", STAGE_DAILY_MAX),
   ("STAGE_DAILY_MIN", STAGE_DAILY_MIN),
   ("STAGE_HOURLY_MEAN", STAGE_HOURLY_MEAN),
   ("STAGE_INSTANT", STAGE_INSTANT),
   ("WATER_TEMPERATURE_DAILY_MEAN", WATER_TEMPERATURE_DAILY_MEAN),
   ("WATER_TEMPERATURE_HOURLY_MEAN", WATER_TEMPERATURE_HOURLY_MEAN),
   ("WATER_TEMPERATURE_INSTANT", WATER_TEMPERATURE_INSTANT),
   ("CATCHMENT_PRECIPITATION_DAILY_SUM", CATCHMENT_PRECIPITATION_DAILY_SUM)]

/-- Attribute access `constants.<name>`: a name the module never assigns
raises `AttributeError`. -/
def moduleAttr (n : String) : Except PyErr String :=
  match assignedNames.lookup n with
  | some v => .ok v
  | none => .error (.attributeError n)

/-- Left-to-right evaluation of a sequence of `constants.<name>` attribute
expressions (as in a tuple or dict display): the first missing attribute
aborts the evaluation with its `AttributeError`. -/
def evalAttrs : List String → Except PyErr (List String)
  | [] => .ok []
  | n :: ns => (moduleAttr n).bind fun v => (evalAttrs ns).map fun vs => v :: vs

end constants

namespace utils

/-! Embedding of `rivretrieve/utils.py`. -/

/-- The names bound at module level in `utils.py`: its import statements
(`datetime`, `io`, `logging`, `pkgutil`, `Optional`, `pd`, `requests`,
`HTTPAdapter`, `Retry`), the module-level assignments, and its five
function definitions.  `os` is NOT imported. -/
def moduleGlobalNames : List String :=
  ["datetime", "io", "logging", "pkgutil", "Optional", "pd", "requests",
   "HTTPAdapter", "Retry", "logger", "DEFAULT_HEADERS",
   "format_start_date", "format_end_date", "get_column_name",
   "requests_retry_session", "load_sites_csv"]

/-- Python builtin names consulted after module globals fail; `os` is a
module, never a builtin. -/
def pyBuiltinNames : List String :=
  ["len", "str", "int", "float", "print", "open", "Exception", "ValueError",
   "FileNotFoundError", "AttributeError", "NameError", "TypeError"]

/-- Name resolution inside a function body of `utils.py`: module globals,
then builtins. -/
def resolvesName (n : String) : Bool :=
  moduleGlobalNames.contains n || pyBuiltinNames.contains n

/-- A date argument of `get_data`: omitted, a well-formed `YYYY-MM-DD`
string (embedded as the day number it denotes), or a malformed string. -/
inductive DateArg
  | omitted
  | valid (day : Int)
  | malformed
  deriving DecidableEq, Repr

/-- Day number of 1900-01-01 in the integer day encoding
(days relative to 1900-01-01). -/
def day19000101 : Int := 0

/-- `utils.format_start_date`: `None` defaults to 1900-01-01, a well-formed
date is returned as is, anything else raises `ValueError`. -/
def format_start_date : DateArg → Except PyErr Int
  | .omitted => .ok day19000101
  | .valid d => .ok d
  | .malformed => .error (.valueError "Incorrect start_date format, should be YYYY-MM-DD")

/-- `utils.format_end_date`: `None` defaults to today (a parameter of the
model), a well-formed date is returned as is, anything else raises
`ValueError`. -/
def format_end_date (today : Int) : DateArg → Except PyErr Int
  | .omitted => .ok today
  | .valid d => .ok d
  | .malformed => .error (.valueError "Incorrect end_date format, should be YYYY-MM-DD")

/-- `utils.get_column_name`: `"stage" ↦ "H"`, `"discharge" ↦ "Q"`, anything
else raises `ValueError`. -/
def get_column_name (varName : String) : Except PyErr String :=
  if varName = "stage" then .ok "H"
  else if varName = "discharge" then .ok "Q"
  else .error (.valueError ("Unsupported variable: " ++ varName ++ ". Must be 'stage' or 'discharge'."))

/-- A site-listing CSV table (opaque to the claims; only presence matters). -/
structure SitesTable where
  rows : List (String × String)
  deriving DecidableEq, Repr

/-- `utils.load_sites_csv`.  Its first statement evaluates
`os.path.dirname(__file__)`; the name `os` must resolve in the module
scope before anything else runs.  The rest of the body (path joining and
`pd.read_csv`) executes only if the lookup succeeded; it is embedded
against an abstract filesystem `fs` mapping file paths to tables. -/
def load_sites_csv (countryCode : String) (fs : List (String × SitesTable)) :
    Except PyErr SitesTable :=
  if resolvesName "os" then
    match fs.lookup ("cached_site_data/" ++ countryCode ++ "_sites.csv") with
    | some t => .ok t
    | none => .error .fileNotFoundError
  else
    .error (.nameError "os")

/-- The functions actually defined in `utils.py`. -/
inductive UtilsFn
  | formatStartDate
  | formatEndDate
  | getColumnName
  | requestsRetrySession
  | loadSitesCsv
  deriving DecidableEq, Repr

/-- Attribute access `utils.<name>` for function-valued attributes: looking
up a name that `utils.py` does not define raises `AttributeError`. -/
def getFnAttr (n : String) : Except PyErr UtilsFn :=
  if n = "format_start_date" then .ok .formatStartDate
  else if n = "format_end_date" then .ok .formatEndDate
  else if n = "get_column_name" then .ok .getColumnName
  else if n = "requests_retry_session" then .ok .requestsRetrySession
  else if n = "load_sites_csv" then .ok .loadSitesCsv
  else .error (.attributeError n)

end utils

/-- A cached-metadata table (opaque to the claims). -/
structure MetaTable where
  rows : List (String × String)
  deriving DecidableEq, Repr

/-- A `get_cached_metadata` body of the form
`return utils.load_cached_metadata_csv(tag)`: the attribute access on the
`utils` module is evaluated first; if it succeeds the resulting function
would be called (no function of that name exists in `utils.py`, so that
continuation is dead code). -/
def callUtilsCachedMetadataCsv (tag : String) : Except PyErr MetaTable :=
  (utils.getFnAttr "load_cached_metadata_csv").bind fun _fn =>
    .error (.otherError ("unreachable: utils has no load_cached_metadata_csv to apply to " ++ tag))

namespace FranceFetcher
/-- `FranceFetcher.get_cached_metadata` delegates to
`utils.load_cached_metadata_csv("french")`. -/
def get_cached_metadata : Except PyErr MetaTable := callUtilsCachedMetadataCsv "french"
end FranceFetcher

namespace JapanFetcher
/-- `JapanFetcher.get_cached_metadata` delegates to
`utils.load_cached_metadata_csv("japan")`. -/
def get_cached_metadata : Except PyErr MetaTable := callUtilsCachedMetadataCsv "japan"
end JapanFetcher

namespace LithuaniaFetcher
/-- `LithuaniaFetcher.get_cached_metadata` delegates to
`utils.load_cached_metadata_csv("lithuania")`. -/
def get_cached_metadata : Except PyErr MetaTable := callUtilsCachedMetadataCsv "lithuania"
end LithuaniaFetcher

namespace USAFetcher
/-- `USAFetcher.get_cached_metadata` delegates to
`utils.load_cached_metadata_csv("usa")`. -/
def get_cached_metadata : Except PyErr MetaTable := callUtilsCachedMetadataCsv "usa"
end USAFetcher

namespace SwedenFetcher
/-- `SwedenFetcher.get_cached_metadata` delegates to
`utils.load_cached_metadata_csv("sweden")`. -/
def get_cached_metadata : Except PyErr MetaTable := callUtilsCachedMetadataCsv "sweden"
end SwedenFetcher

namespace AustraliaFetcher
/-- `AustraliaFetcher.get_gauge_ids` delegates to
`utils.load_sites_csv("australia")`. -/
def get_gauge_ids (fs : List (String × utils.SitesTable)) : Except PyErr utils.SitesTable :=
  utils.load_sites_csv "australia" fs
end AustraliaFetcher

namespace UKFetcher
/-- `UKFetcher.get_gauge_ids` delegates to `utils.load_sites_csv("uk")`. -/
def get_gauge_ids (fs : List (String × utils.SitesTable)) : Except PyErr utils.SitesTable :=
  utils.load_sites_csv "uk" fs
end UKFetcher

namespace CanadaFetcher
/-- `CanadaFetcher.get_sites` delegates to `utils.load_sites_csv("canada")`. -/
def get_sites (fs : List (String × utils.SitesTable)) : Except PyErr utils.SitesTable :=
  utils.load_sites_csv "canada" fs
end CanadaFetcher

namespace BrazilFetcher
/-- `BrazilFetcher.get_sites` delegates to `utils.load_sites_csv("brazil")`. -/
def get_sites (fs : List (String × utils.SitesTable)) : Except PyErr utils.SitesTable :=
  utils.load_sites_csv "brazil" fs
end BrazilFetcher

/-! ## Shared data-pipeline helpers -/

/-- `try: body except Exception: return fallback` for a body embedded as
`Except`. -/
def tryExceptD {α : Type} (body : Except PyErr α) (fallback : α) : α :=
  match body with
  | .ok a => a
  | .error _ => fallback

/-- Sequence-level test used to embed Python's `str.startswith`. -/
def isSeqPrefixOf : List Char → List Char → Bool
  | [], _ => true
  | _ :: _, [] => false
  | a :: as, b :: bs => a == b && isSeqPrefixOf as bs

/-- Sequence-level containment used to embed Python's `sub in s`. -/
def containsSeq (sub : List Char) : List Char → Bool
  | [] => isSeqPrefixOf sub []
  | b :: bs => isSeqPrefixOf sub (b :: bs) || containsSeq sub bs

/-- Python's `s.startswith(pre)`. -/
def pyStartsWith (pre s : String) : Bool := isSeqPrefixOf pre.data s.data

/-- Python's substring test `sub in s`. -/
def pyInStr (sub s : String) : Bool := containsSeq sub.data s.data

/-- `.ok` projection; used for per-chunk `try/except ... continue` loops. -/
def exceptOk {α : Type} : Except PyErr α → Option α
  | .ok a => some a
  | .error _ => none

/-- The nondecreasing-timestamp order used by `df.sort_values(time)`. -/
abbrev timeOrder {α : Type} (key : α → Int) : α → α → Prop := fun a b => key a ≤ key b

instance {α : Type} (key : α → Int) : DecidableRel (timeOrder key) :=
  fun a b => Int.decLe (key a) (key b)

instance {α : Type} (key : α → Int) : IsTotal α (timeOrder key) :=
  ⟨fun a b => Int.le_total (key a) (key b)⟩

instance {α : Type} (key : α → Int) : IsTrans α (timeOrder key) :=
  ⟨fun _ _ _ h h2 => le_trans h h2⟩

/-- `df.sort_values(by=<time column>)`. -/
def sortByKey {α : Type} (key : α → Int) (l : List α) : List α :=
  List.insertionSort (timeOrder key) l

namespace SwedenFetcher

/-! Embedding of the class body of `rivretrieve/sweden.py` (`SwedenFetcher`).
A Python `class` statement executes its body when the module is imported;
the first statement after the docstring constants, the `SUPPORTED_VARIABLES`
dict display (sweden.py lines 38-44), evaluates one `constants.<NAME>`
attribute expression per key, left to right, before the class object — and
with it every method, `get_data` included — can come into existence. -/

/-- The attribute names referenced as the keys of the `SUPPORTED_VARIABLES`
class-body dict, in source order (sweden.py lines 38-44). -/
def SUPPORTED_VARIABLES_KEYS : List String :=
  ["DISCHARGE_DAILY_MEAN", "DISCHARGE_INSTANT", "STAGE_INSTANT",
   "WATER_TEMPERATURE_INSTANT", "DISCHARGE_MONTHLY_MEAN"]

/-- The outcome of `import rivretrieve.sweden`: the module body runs the
`class SwedenFetcher` statement, whose first effect is evaluating the
`SUPPORTED_VARIABLES` dict keys against the `constants` module. -/
def moduleImport : Except PyErr (List String) :=
  constants.evalAttrs SUPPORTED_VARIABLES_KEYS

end SwedenFetcher

namespace EstoniaFetcher

/-! Embedding of the class body of `rivretrieve/estonia.py`
(`EstoniaFetcher`): its first statement, the `VAR_MAP` dict display
(estonia.py lines 48-60), evaluates one `constants.<NAME>` attribute per
key at import time. -/

/-- The attribute names referenced as the keys of the `VAR_MAP` class-body
dict, in source order (estonia.py lines 48-60). -/
def VAR_MAP_KEYS : List String :=
  ["DISCHARGE_DAILY_MEAN", "DISCHARGE_DAILY_MAX", "DISCHARGE_DAILY_MIN",
   "STAGE_DAILY_MEAN", "STAGE_DAILY_MAX", "STAGE_DAILY_MIN",
   "WATER_TEMPERATURE_DAILY_MEAN", "WATER_TEMPERATURE_DAILY_MAX",
   "WATER_TEMPERATURE_DAILY_MIN"]

/-- The outcome of `import rivretrieve.estonia`: the module body runs the
`class EstoniaFetcher` statement, whose first effect is evaluating the
`VAR_MAP` dict keys against the `constants` module. -/
def moduleImport : Except PyErr (List String) :=
  constants.evalAttrs VAR_MAP_KEYS

end EstoniaFetcher

namespace PolandFetcher

/-! Embedding of `rivretrieve/poland.py` (`PolandFetcher`).  The module
imports cleanly (its class body references no missing attribute), but
`get_available_variables` evaluates
`(constants.DISCHARGE, constants.STAGE, constants.WATER_TEMPERATURE)`
at CALL time — and `constants.py` assigns no `WATER_TEMPERATURE`. -/

/-- The attribute names in the tuple returned by `get_available_variables`
(poland.py line 34), in source order. -/
def AVAILABLE_VARIABLE_NAMES : List String :=
  ["DISCHARGE", "STAGE", "WATER_TEMPERATURE"]

/-- `get_available_variables`: builds the tuple
`(constants.DISCHARGE, constants.STAGE, constants.WATER_TEMPERATURE)`,
evaluating the attribute expressions left to right. -/
def get_available_variables : Except PyErr (List String) :=
  constants.evalAttrs AVAILABLE_VARIABLE_NAMES

/-- `get_data`: format the dates, then evaluate the membership test
`variable not in self.get_available_variables()` (which must build the
tuple first) and raise `ValueError` on an unsupported variable; everything
past the validation (the zarr cache pipeline, with its own handlers) is
abstracted as the outcome `rest`.  No handler encloses the validation. -/
def get_data (today : Int) (sd ed : utils.DateArg) (varName : String)
    (rest : Except PyErr (List (Int × ℚ))) : Except PyErr (List (Int × ℚ)) := do
  let _s ← utils.format_start_date sd
  let _e ← utils.format_end_date today ed
  let avail ← get_available_variables
  if varName ∈ avail then rest
  else throw (.valueError ("Unsupported variable: " ++ varName))

end PolandFetcher

namespace AustraliaFetcher

/-! Embedding of `rivretrieve/australia.py` (`AustraliaFetcher`). -/

/-- `get_available_variables` = `("discharge", "stage")`. -/
def get_available_variables : List String := [constants.DISCHARGE, constants.STAGE]

/-- One data row of the BoM CSV payload after `pd.read_csv`:
`timestamp` is the Timestamp cell truncated to its day by `.dt.date`
(day-number encoding), `value` the Value cell after
`pd.to_numeric(errors="coerce")`. -/
structure RawRow where
  timestamp : Int
  value : Option ℚ
  deriving DecidableEq, Repr

/-- `_download_data` (with `_get_timeseries_id` and `_make_bom_request`
inside it): every raised exception is caught internally and turned into
`None`; `ok none` models a missing `ts_id` / `"No matches."` response. -/
def download_data (net : Except PyErr (Option (List RawRow))) : Option (List RawRow) :=
  match net with
  | .error _ => none
  | .ok r => r

/-- `_parse_data`: `None` or a frame without the expected header parses to
the empty frame; otherwise rename `Value` to the variable name and
`dropna()`.  No sort, no unit conversion and no date filtering is
applied.  Its own `try/except` returns the empty frame on error. -/
def parse_data (raw : Option (List RawRow)) : List (Int × ℚ) :=
  match raw with
  | none => []
  | some rows => rows.filterMap fun r => r.value.map fun v => (r.timestamp, v)

/-- `get_data`: format dates, validate the variable (else `ValueError`),
then `try: download; parse; return` with a catch-all returning the empty
frame.  The result of `_parse_data` is returned as is — in particular it
is not clipped to `[start_date, end_date]`. -/
def get_data (today : Int) (sd ed : utils.DateArg) (varName : String)
    (net : Except PyErr (Option (List RawRow))) : Except PyErr (List (Int × ℚ)) := do
  let _s ← utils.format_start_date sd
  let _e ← utils.format_end_date today ed
  if varName ∈ get_available_variables then
    pure (tryExceptD (pure (parse_data (download_data net))) [])
  else throw (.valueError ("Unsupported variable: " ++ varName))

end AustraliaFetcher

namespace USAFetcher

/-! Embedding of `rivretrieve/usa.py` (`USAFetcher`). -/

def get_available_variables : List String :=
  [constants.DISCHARGE_DAILY_MEAN, constants.DISCHARGE_INSTANT,
   constants.STAGE_DAILY_MEAN, constants.STAGE_DAILY_MAX,
   constants.STAGE_DAILY_MIN, constants.STAGE_INSTANT]

/-- `_get_param_code`: `"stage" in variable ↦ "00065"`,
`"discharge" in variable ↦ "00060"`, else `ValueError`. -/
def get_param_code (varName : String) : Except PyErr String :=
  if pyInStr constants.STAGE varName then .ok "00065"
  else if pyInStr constants.DISCHARGE varName then .ok "00060"
  else .error (.valueError ("Unsupported variable: " ++ varName))

/-- One row of the NWIS frame: index timestamp truncated to its day, and
the selected value column's cell after `to_numeric(errors="coerce")`.
(The value-column presence check of `_parse_data` is represented by the
per-cell `Option`.) -/
structure RawRow where
  time : Int
  value : Option ℚ
  deriving DecidableEq, Repr

/-- `_download_data`: wraps the NWIS call in `try/except` and returns an
empty frame on any error. -/
def download_data (net : Except PyErr (List RawRow)) : List RawRow :=
  tryExceptD net []

/-- The unit-conversion factor of `_parse_data`: feet → meters `0.3048`
for stage, cfs → m³/s `0.0283168466` for discharge; for any other
variable the Python local `mult` is unbound (`UnboundLocalError`). -/
def multOf (varName : String) : Option ℚ :=
  if pyStartsWith constants.STAGE varName then some (3048 / 10000)
  else if pyStartsWith constants.DISCHARGE varName then some (283168466 / 10000000000)
  else none

/-- `_parse_data`: empty input parses to the empty frame; otherwise check
the parameter code, multiply every parseable cell by the conversion
factor and `dropna()`. -/
def parse_data (rows : List RawRow) (varName : String) : Except PyErr (List (Int × ℚ)) :=
  if rows.isEmpty then .ok []
  else
    (get_param_code varName).bind fun _code =>
      match multOf varName with
      | none => .error (.otherError "UnboundLocalError: mult")
      | some m => .ok (rows.filterMap fun r => r.value.map fun v => (r.time, v * m))

/-- `get_data`: format dates, validate the variable (else `ValueError`),
then `try: download; parse; return` with a catch-all returning the empty
frame.  No clip to `[start_date, end_date]` is applied. -/
def get_data (today : Int) (sd ed : utils.DateArg) (varName : String)
    (net : Except PyErr (List RawRow)) : Except PyErr (List (Int × ℚ)) := do
  let _s ← utils.format_start_date sd
  let _e ← utils.format_end_date today ed
  if varName ∈ get_available_variables then
    pure (tryExceptD (parse_data (download_data net) varName) [])
  else throw (.valueError ("Unsupported variable: " ++ varName))

end USAFetcher

namespace FranceFetcher

/-! Embedding of `rivretrieve/france.py` (`FranceFetcher`). -/

def get_available_variables : List String :=
  [constants.DISCHARGE_DAILY_MEAN, constants.STAGE_DAILY_MAX]

/-- `_get_variable_code`: only logs a warning (returns `None`) for an
unsupported variable. -/
def get_variable_code (varName : String) : Option String :=
  if varName = constants.DISCHARGE_DAILY_MEAN then some "QmnJ"
  else if varName = constants.STAGE_DAILY_MAX then some "HIXnJ"
  else none

/-- `_conversion_factor`: 1000 (l/s → m³/s) for discharge, 1000 (mm → m)
for stage; `None` otherwise. -/
def conversion_factor (varName : String) : Option ℚ :=
  if pyStartsWith constants.DISCHARGE varName then some 1000
  else if pyStartsWith constants.STAGE varName then some 1000
  else none

/-- One record of the Hubeau JSON payload (all pages concatenated):
`grandeur` = `grandeur_hydro_elab`, `dateObs` = `date_obs_elab` truncated
to its day, `resultat` = `resultat_obs_elab` after
`to_numeric(errors="coerce")`. -/
structure RawRec where
  grandeur : String
  dateObs : Int
  resultat : Option ℚ
  deriving DecidableEq, Repr

/-- `_download_data`: the pagination loop re-raises request and JSON
errors, so its outcome is exactly the network outcome `net`. -/
def download_data (net : Except PyErr (List RawRec)) : Except PyErr (List RawRec) :=
  net

/-- `_parse_data`: filter by the variable's grandeur code, divide every
parseable value by the conversion factor, `dropna()`, sort by time.  A
`None` code or factor would raise inside the `try` and yield the empty
frame.  No deduplication of timestamps is performed. -/
def parse_data (raw : List RawRec) (varName : String) : List (Int × ℚ) :=
  if raw.isEmpty then []
  else
    match get_variable_code varName, conversion_factor varName with
    | some code, some f =>
        sortByKey Prod.fst
          ((raw.filter fun r => r.grandeur == code).filterMap fun r =>
            r.resultat.map fun v => (r.dateObs, v / f))
    | _, _ => []

/-- `get_data`: format dates, validate the variable (else `ValueError`),
then `try: download; parse; return` with a catch-all returning the empty
frame.  No clip to `[start_date, end_date]` is applied. -/
def get_data (today : Int) (sd ed : utils.DateArg) (varName : String)
    (net : Except PyErr (List RawRec)) : Except PyErr (List (Int × ℚ)) := do
  let _s ← utils.format_start_date sd
  let _e ← utils.format_end_date today ed
  if varName ∈ get_available_variables then
    pure (tryExceptD ((download_data net).map fun raw => parse_data raw varName) [])
  else throw (.valueError ("Unsupported variable: " ++ varName))

end FranceFetcher

namespace JapanFetcher

/-! Embedding of `rivretrieve/japan.py` (`JapanFetcher`).  Timestamps are
in HOURS (hour number = 24 * day number + hour of day) so that the
sub-daily clipping semantics of `get_data` is visible. -/

def VARIABLE_KIND_MAP : List (String × Nat) :=
  [(constants.STAGE_HOURLY_MEAN, 2), (constants.STAGE_DAILY_MEAN, 3),
   (constants.DISCHARGE_HOURLY_MEAN, 6), (constants.DISCHARGE_DAILY_MEAN, 7)]

def get_available_variables : List String :=
  [constants.STAGE_HOURLY_MEAN, constants.STAGE_DAILY_MEAN,
   constants.DISCHARGE_HOURLY_MEAN, constants.DISCHARGE_DAILY_MEAN]

/-- `_get_kind`: map the variable through `VARIABLE_KIND_MAP`, else
`ValueError`. -/
def get_kind (varName : String) : Except PyErr Nat :=
  match VARIABLE_KIND_MAP.lookup varName with
  | some k => .ok k
  | none => .error (.valueError ("Unsupported variable: " ++ varName))

/-- The rows decoded from one monthly/yearly `.dat` file (time in hours,
value), after the melt/dropna steps of `_parse_data`. -/
abbrev Chunk := List (Int × ℚ)

/-- `_download_data`: one request per month (or year); each iteration is
wrapped in `try/except`, so a failed chunk is logged and skipped and the
successfully downloaded chunk contents are returned in order. -/
def download_data (netChunks : List (Except PyErr Chunk)) : List Chunk :=
  netChunks.filterMap exceptOk

/-- `_parse_data`: each chunk is decoded inside `try/except ... continue`
(a malformed chunk is skipped; `exceptOk` upstream already models skipped
chunks), the per-chunk frames are concatenated and sorted by time.  No
deduplication of timestamps is performed. -/
def parse_data (chunks : List Chunk) : List (Int × ℚ) :=
  if chunks.isEmpty then []
  else sortByKey Prod.fst chunks.flatten

/-- `get_data`: format dates, validate the variable (else `ValueError`),
then `try:` download; if nothing was downloaded return the empty frame;
parse; clip the non-empty frame to
`start_date <= t < end_date + 1 day`; catch-all returns the empty
frame. -/
def get_data (today : Int) (sd ed : utils.DateArg) (varName : String)
    (netChunks : List (Except PyErr Chunk)) : Except PyErr (List (Int × ℚ)) := do
  let s ← utils.format_start_date sd
  let e ← utils.format_end_date today ed
  if varName ∈ get_available_variables then
    pure (tryExceptD (do
      let raws := download_data netChunks
      if raws.isEmpty then pure []
      else
        let df := parse_data raws
        if df.isEmpty then pure df
        else pure (df.filter fun p => decide (24 * s ≤ p.1) && decide (p.1 < 24 * (e + 1)))) [])
  else throw (.valueError ("Unsupported variable: " ++ varName))

end JapanFetcher

namespace LithuaniaFetcher

/-! Embedding of the data pipeline of `rivretrieve/lithuania.py`
(`LithuaniaFetcher`); the `_throttle_requests` rate limiter is embedded
separately below. -/

def get_available_variables : List String :=
  [constants.DISCHARGE_DAILY_MEAN, constants.STAGE_DAILY_MEAN]

/-- One observation of the Meteo.lt JSON payload: `observationDateUtc`
after `to_datetime(errors="coerce")` (day number), and the requested API
variable's cell after `to_numeric`. -/
structure Obs where
  dateUtc : Option Int
  value : Option ℚ
  deriving DecidableEq, Repr

/-- `_download_data`: one request per month; each iteration is wrapped in
`try/except` (404 and failures are logged and skipped), and the
`observations` arrays of the successful responses are concatenated. -/
def download_data (netChunks : List (Except PyErr (List Obs))) : List Obs :=
  (netChunks.filterMap exceptOk).flatten

/-- `_parse_data`: convert the date and value cells, divide stage values
by 100 (cm → m), `dropna` on both columns, sort by time. -/
def parse_data (raw : List Obs) (varName : String) : List (Int × ℚ) :=
  if raw.isEmpty then []
  else
    sortByKey Prod.fst (raw.filterMap fun o =>
      match o.dateUtc, o.value with
      | some t, some v =>
          some (t, if varName == constants.STAGE_DAILY_MEAN then v / 100 else v)
      | _, _ => none)

/-- `get_data`: format dates, validate the variable (else `ValueError`),
then `try:` download; parse; clip the non-empty frame to
`start_date <= t < end_date + 1 day`; catch-all returns the empty
frame. -/
def get_data (today : Int) (sd ed : utils.DateArg) (varName : String)
    (netChunks : List (Except PyErr (List Obs))) : Except PyErr (List (Int × ℚ)) := do
  let s ← utils.format_start_date sd
  let e ← utils.format_end_date today ed
  if varName ∈ get_available_variables then
    pure (tryExceptD (do
      let raw := download_data netChunks
      let df := parse_data raw varName
      if df.isEmpty then pure df
      else pure (df.filter fun p => decide (s ≤ p.1) && decide (p.1 < e + 1))) [])
  else throw (.valueError ("Unsupported variable: " ++ varName))

end LithuaniaFetcher

namespace NorwayFetcher

/-! Embedding of the `get_data` control flow of `rivretrieve/norway.py`
(`NorwayFetcher`).  The NVE download/parse pipeline is abstracted as the
outcome `net` (it is behind the catch-all and not claim-relevant); the
pre-`try` control flow is faithful. -/

/-- `get_available_variables` returns the keys of `PARAMETERS`. -/
def get_available_variables : List String :=
  [constants.STAGE_DAILY_MEAN, constants.DISCHARGE_DAILY_MEAN,
   constants.WATER_TEMPERATURE_DAILY_MEAN, constants.STAGE_HOURLY_MEAN,
   constants.DISCHARGE_HOURLY_MEAN, constants.WATER_TEMPERATURE_HOURLY_MEAN,
   constants.STAGE_INSTANT, constants.DISCHARGE_INSTANT,
   constants.WATER_TEMPERATURE_INSTANT]

/-- `get_data`: if the instance has no API key, return the EMPTY frame at
once — before date formatting and before the variable membership check;
otherwise format dates, validate the variable (else `ValueError`), and
run the guarded download/parse with a catch-all returning the empty
frame. -/
def get_data (apiKey : Option String) (today : Int) (sd ed : utils.DateArg)
    (varName : String) (net : Except PyErr (List (Int × ℚ))) :
    Except PyErr (List (Int × ℚ)) :=
  if !(pyTruthy apiKey) then .ok []
  else do
    let _s ← utils.format_start_date sd
    let _e ← utils.format_end_date today ed
    if varName ∈ get_available_variables then
      pure (tryExceptD net [])
    else throw (.valueError ("Unsupported variable: " ++ varName))

end NorwayFetcher

namespace LithuaniaFetcher

/-! Embedding of `LithuaniaFetcher._throttle_requests` and the class-level
deque `request_times: deque[float] = deque(maxlen=180)`.  The clock is a
rational number of seconds; `time.sleep(w)` advances the clock by exactly
`w` (a lower bound on the real behaviour). -/

/-- `while request_times and now - request_times[0] > 60: popleft()`. -/
def evict (now : ℚ) : List ℚ → List ℚ
  | [] => []
  | t :: rest => if 60 < now - t then evict now rest else t :: rest

/-- `deque.append` with a `maxlen` bound: when full, the oldest entries are
discarded to make room. -/
def pushMax (maxlen : ℕ) (q : List ℚ) (t : ℚ) : List ℚ :=
  if q.length < maxlen then q ++ [t] else (q.drop (q.length + 1 - maxlen)) ++ [t]

/-- The per-provider cap: 180 requests per sliding 60-second window
(both the `>= 180` capacity test and the deque `maxlen`). -/
def requestCap : ℕ := 180

/-- One `_throttle_requests()` call at clock `now` with deque `q` and cap
`cap`: evict entries older than 60 s; if at capacity, sleep
`60 - (now - request_times[0]) + 0.1` seconds, evict again; record the
current time.  Returns the clock after the call and the new deque. -/
def throttleStep (cap : ℕ) (now : ℚ) (q : List ℚ) : ℚ × List ℚ :=
  let q1 := evict now q
  if cap ≤ q1.length then
    match q1 with
    | [] => (now, pushMax cap [] now)
    | t0 :: _ =>
      let wait := 60 - (now - t0) + 1 / 10
      let now2 := now + wait
      let q2 := evict now2 q1
      (now2, pushMax cap q2 now2)
  else (now, pushMax cap q1 now)

/-- A sequence of throttled requests: before the `i`-th call the clock
advances by `delays[i] ≥ 0` (time spent outside the limiter).  Returns the
final (clock, deque) and the recorded request times, in order. -/
def throttleRun (cap : ℕ) : ℚ → List ℚ → List ℚ → (ℚ × List ℚ) × List ℚ
  | now, q, [] => ((now, q), [])
  | now, q, d :: ds =>
    let now1 := now + d
    let s := throttleStep cap now1 q
    let rest := throttleRun cap s.1 s.2 ds
    (rest.1, s.1 :: rest.2)

/-- The recorded request times of a run started at clock `start` with an
empty deque. -/
def throttleTimes (cap : ℕ) (start : ℚ) (delays : List ℚ) : List ℚ :=
  (throttleRun cap start [] delays).2

/-- "At most `cap` recorded requests in any sliding 60-second window",
stated index-wise: two recorded times `cap` positions apart are more than
60 seconds apart. -/
def SpacedBy (cap : ℕ) (ts : List ℚ) : Prop :=
  ∀ i x y, ts.get? i = some x → ts.get? (i + cap) = some y → x + 60 < y

/-- Invariant tying the limiter state (clock `now`, deque `q`) to the
history `hist` of recorded request times: the deque is a suffix of the
history, every older history entry left the 60-second window at some
earlier clock, and the deque never exceeds the cap. -/
def ThrInv (cap : ℕ) (now : ℚ) (q : List ℚ) (hist : List ℚ) : Prop :=
  ∃ k, k ≤ hist.length ∧ q = hist.drop k
    ∧ (∀ j x, j < k → hist.get? j = some x → x + 60 < now)
    ∧ q.length ≤ cap

end LithuaniaFetcher

namespace BrazilFetcher

/-! Embedding of `BrazilFetcher._get_token` (`rivretrieve/brazil.py`). -/

/-- The auth-session state: constructor-injected credentials, the cached
token (`_token`, initially `None`) and its expiry clock
(`_token_expiry`, initially 0). -/
structure AuthState where
  username : Option String
  password : Option String
  token : Option String
  tokenExpiry : ℚ
  deriving DecidableEq, Repr

/-- Outcome of the credential-exchange HTTP request (the response
envelope): success carrying `items.tokenautenticacao`, an unsuccessful
envelope, a transport error, or a malformed response. -/
inductive ExchangeOutcome
  | success (tok : String)
  | authFailed
  | netError
  | badResponse
  deriving DecidableEq, Repr

/-- `_get_token()` at clock `now`: returns `None` when credentials are
missing; returns the cached token when it is truthy and `now` is strictly
before the stored expiry; otherwise performs the exchange — on success
the new token is cached with expiry `now + 840` (the 14-minute safety
margin) and returned, on any failure `None` is returned and the state is
unchanged.  The `Bool` reports whether an exchange was performed. -/
def get_token (now : ℚ) (st : AuthState) (ex : ExchangeOutcome) :
    Option String × AuthState × Bool :=
  if !(pyTruthy st.username) || !(pyTruthy st.password) then (none, st, false)
  else if pyTruthy st.token && decide (now < st.tokenExpiry) then (st.token, st, false)
  else
    match ex with
    | .success tok => (some tok, { st with token := some tok, tokenExpiry := now + 840 }, true)
    | _ => (none, st, true)

end BrazilFetcher

namespace CanadaFetcher

/-! Embedding of `CanadaFetcher._download_hydat` / `_get_hydat_connection`
(`rivretrieve/canada.py`).  The local filesystem is the list `fs` of
existing file paths; the outcome of `_find_latest_hydat_link` (itself a
network operation) is the parameter `latestLink`; the archive request +
extraction outcome is `archive` (`ok true` = fetched zip containing a
`.sqlite3` member, `ok false` = zip without one, `error` = download or
extraction failure). -/

/-- `DATA_DIR = Path(os.path.dirname(__file__)) / "data"`. -/
def DATA_DIR : String := "rivretrieve/data"

/-- `latest_link.split("/")[-1]`, on the character sequence. -/
def splitOnSlash : List Char → List (List Char)
  | [] => [[]]
  | a :: as =>
    match splitOnSlash as with
    | [] => [[]]
    | r :: rs => if a == '/' then [] :: r :: rs else (a :: r) :: rs

/-- `zip_filename = latest_link.split("/")[-1]`. -/
def zipFilename (link : String) : String :=
  ⟨(splitOnSlash link.data).getLastD []⟩

/-- `zip_filename.replace(".zip", ".sqlite3")`: left-to-right replacement
of every (non-overlapping) occurrence, specialised to the literal
arguments of the source call. -/
def replaceZipExt : List Char → List Char
  | [] => []
  | '.' :: 'z' :: 'i' :: 'p' :: rest =>
      '.' :: 's' :: 'q' :: 'l' :: 'i' :: 't' :: 'e' :: '3' :: replaceZipExt rest
  | c :: rest => c :: replaceZipExt rest

/-- `sqlite_filename = zip_filename.replace(".zip", ".sqlite3")`. -/
def sqliteFilename (zipName : String) : String := ⟨replaceZipExt zipName.data⟩

/-- `self.HYDAT_PATH = self.DATA_DIR / sqlite_filename`: the path the
downloader resolves from the latest link. -/
def resolvedHydatPath (link : String) : String :=
  DATA_DIR ++ "/" ++ sqliteFilename (zipFilename link)

/-- `_download_hydat()`: no link → failure without downloading; resolved
path already on disk → `True` without downloading the archive and without
touching the filesystem; otherwise download and extract the archive
(adding the file on success).  Result: (return value, filesystem after
the call, whether the archive was downloaded). -/
def download_hydat (latestLink : Option String) (fs : List String)
    (archive : Except PyErr Bool) : Bool × List String × Bool :=
  match latestLink with
  | none => (false, fs, false)
  | some link =>
    let path := resolvedHydatPath link
    if fs.contains path then (true, fs, false)
    else
      match archive with
      | .ok true => (true, path :: fs, true)
      | .ok false => (false, fs, true)
      | .error _ => (false, fs, true)

/-- `_get_hydat_connection()`: connect directly when the current
`HYDAT_PATH` exists; otherwise build the store via `_download_hydat`,
raising `FileNotFoundError` when that fails.  Returns the filesystem in
effect for the connection. -/
def get_hydat_connection (hydatPath : String) (fs : List String)
    (latestLink : Option String) (archive : Except PyErr Bool) :
    Except PyErr (List String) :=
  if fs.contains hydatPath then .ok fs
  else
    match download_hydat latestLink fs archive with
    | (true, fs2, _) => .ok fs2
    | (false, _, _) => .error (.fileNotFoundError)

end CanadaFetcher

/-! ## Claim theorems -/

/-! Reduction and permutation helpers shared by the claim proofs. -/

theorem exceptBindOk {α β : Type} (a : α) (f : α → Except PyErr β) :
    (bind (Except.ok a) f : Except PyErr β) = f a := rfl

theorem exceptBindErr {α β : Type} (e : PyErr) (f : α → Except PyErr β) :
    (bind (Except.error e) f : Except PyErr β) = Except.error e := rfl

theorem exceptPureEq {α : Type} (a : α) : (pure a : Except PyErr α) = Except.ok a := rfl

theorem exceptThrowEq {α : Type} (e : PyErr) : (throw e : Except PyErr α) = Except.error e := rfl

theorem mem_sortByKey {α : Type} (key : α → Int) (l : List α) (x : α) :
    x ∈ sortByKey key l ↔ x ∈ l :=
  (List.perm_insertionSort (timeOrder key) l).mem_iff

theorem sortByKey_pairwise {α : Type} (key : α → Int) (l : List α) :
    (sortByKey key l).Pairwise (fun a b => key a ≤ key b) :=
  List.sorted_insertionSort (timeOrder key) l

/-- C9: `utils.load_sites_csv` always raises `NameError` for the unimported
name `os`, so every site-listing helper that delegates to it
(Australia/UK `get_gauge_ids`, Canada/Brazil `get_sites`) raises and can
never return a table. -/
theorem c9_load_sites_csv_nameError (countryCode : String)
    (fs : List (String × utils.SitesTable)) :
    utils.load_sites_csv countryCode fs = .error (.nameError "os")
    ∧ AustraliaFetcher.get_gauge_ids fs = .error (.nameError "os")
    ∧ UKFetcher.get_gauge_ids fs = .error (.nameError "os")
    ∧ CanadaFetcher.get_sites fs = .error (.nameError "os")
    ∧ BrazilFetcher.get_sites fs = .error (.nameError "os") := by
  have h : utils.resolvesName "os" = false := by decide
  refine ⟨?_, ?_, ?_, ?_, ?_⟩ <;>
    simp [AustraliaFetcher.get_gauge_ids, UKFetcher.get_gauge_ids,
      CanadaFetcher.get_sites, BrazilFetcher.get_sites, utils.load_sites_csv, h]

/-- C10: `utils.py` defines no `load_cached_metadata_csv`, so the
`get_cached_metadata` methods of the France, Japan, Lithuania, USA and
Sweden fetchers raise `AttributeError` unconditionally. -/
theorem c10_cached_metadata_attributeError :
    FranceFetcher.get_cached_metadata = .error (.attributeError "load_cached_metadata_csv")
    ∧ JapanFetcher.get_cached_metadata = .error (.attributeError "load_cached_metadata_csv")
    ∧ LithuaniaFetcher.get_cached_metadata = .error (.attributeError "load_cached_metadata_csv")
    ∧ USAFetcher.get_cached_metadata = .error (.attributeError "load_cached_metadata_csv")
    ∧ SwedenFetcher.get_cached_metadata = .error (.attributeError "load_cached_metadata_csv") := by
  refine ⟨?_, ?_, ?_, ?_, ?_⟩ <;> rfl

/-- C1 (counterexample): `PolandFetcher.get_data` raises `AttributeError`
for EVERY input — its variable validation evaluates
`constants.WATER_TEMPERATURE`, which `constants.py` never assigns — so
with the existing variable `constants.DISCHARGE`, valid dates and no
network activity at all, `get_data` raises an exception that is neither a
contract violation nor converted into an empty frame. -/
theorem c1_counterexample_poland_get_data_raises :
    PolandFetcher.get_data 7 (.valid 0) (.valid 1) constants.DISCHARGE (.ok [])
      = .error (.attributeError "WATER_TEMPERATURE") := by rfl

/-- C1 (amended): for the fetchers whose `get_data` has the catch-all
handler (Australia, USA, France, Japan, Lithuania), a download/parse
exception is converted into the empty frame and `get_data` returns
normally; `PolandFetcher.get_data` instead raises
`AttributeError("WATER_TEMPERATURE")` for every variable, because its
validation itself crashes; and the two modules whose `get_data` has no
handler at all, sweden.py and estonia.py, cannot even be imported — their
class bodies evaluate nonexistent `constants` attributes. -/
theorem c1_amended_exception_handling (today : Int) (sd ed : utils.DateArg)
    (v : String) (e : PyErr) (hsd : sd ≠ .malformed) (hed : ed ≠ .malformed) :
    (v ∈ AustraliaFetcher.get_available_variables →
        AustraliaFetcher.get_data today sd ed v (.error e) = .ok [])
    ∧ (v ∈ USAFetcher.get_available_variables →
        USAFetcher.get_data today sd ed v (.error e) = .ok [])
    ∧ (v ∈ FranceFetcher.get_available_variables →
        FranceFetcher.get_data today sd ed v (.error e) = .ok [])
    ∧ (v ∈ JapanFetcher.get_available_variables →
        JapanFetcher.get_data today sd ed v [.error e] = .ok [])
    ∧ (v ∈ LithuaniaFetcher.get_available_variables →
        LithuaniaFetcher.get_data today sd ed v [.error e] = .ok [])
    ∧ (∀ rest, PolandFetcher.get_data today sd ed v rest
        = .error (.attributeError "WATER_TEMPERATURE"))
    ∧ SwedenFetcher.moduleImport = .error (.attributeError "DISCHARGE_MONTHLY_MEAN")
    ∧ EstoniaFetcher.moduleImport = .error (.attributeError "WATER_TEMPERATURE_DAILY_MAX") := by
  cases sd <;> cases ed <;>
    first
      | exact absurd rfl hsd
      | exact absurd rfl hed
      | exact ⟨fun hv => by fin_cases hv <;> rfl,
               fun hv => by fin_cases hv <;> rfl,
               fun hv => by fin_cases hv <;> rfl,
               fun hv => by fin_cases hv <;> rfl,
               fun hv => by fin_cases hv <;> rfl,
               fun rest => rfl, rfl, rfl⟩

/-- C1 (witness): the amended theorem applied at a concrete input. -/
theorem c1_amended_exception_handling_witness :
    (utils.DateArg.valid 0 ≠ .malformed) ∧ (utils.DateArg.valid 1 ≠ .malformed)
    ∧ ((constants.DISCHARGE_DAILY_MEAN ∈ AustraliaFetcher.get_available_variables →
          AustraliaFetcher.get_data 7 (.valid 0) (.valid 1) constants.DISCHARGE_DAILY_MEAN
            (.error .requestError) = .ok [])
       ∧ (constants.DISCHARGE_DAILY_MEAN ∈ USAFetcher.get_available_variables →
          USAFetcher.get_data 7 (.valid 0) (.valid 1) constants.DISCHARGE_DAILY_MEAN
            (.error .requestError) = .ok [])
       ∧ (constants.DISCHARGE_DAILY_MEAN ∈ FranceFetcher.get_available_variables →
          FranceFetcher.get_data 7 (.valid 0) (.valid 1) constants.DISCHARGE_DAILY_MEAN
            (.error .requestError) = .ok [])
       ∧ (constants.DISCHARGE_DAILY_MEAN ∈ JapanFetcher.get_available_variables →
          JapanFetcher.get_data 7 (.valid 0) (.valid 1) constants.DISCHARGE_DAILY_MEAN
            [.error .requestError] = .ok [])
       ∧ (constants.DISCHARGE_DAILY_MEAN ∈ LithuaniaFetcher.get_available_variables →
          LithuaniaFetcher.get_data 7 (.valid 0) (.valid 1) constants.DISCHARGE_DAILY_MEAN
            [.error .requestError] = .ok [])
       ∧ (∀ rest, PolandFetcher.get_data 7 (.valid 0) (.valid 1) constants.DISCHARGE_DAILY_MEAN
            rest = .error (.attributeError "WATER_TEMPERATURE"))
       ∧ SwedenFetcher.moduleImport = .error (.attributeError "DISCHARGE_MONTHLY_MEAN")
       ∧ EstoniaFetcher.moduleImport
           = .error (.attributeError "WATER_TEMPERATURE_DAILY_MAX")) :=
  ⟨by decide, by decide,
   c1_amended_exception_handling 7 (.valid 0) (.valid 1) constants.DISCHARGE_DAILY_MEAN
     .requestError (by decide) (by decide)⟩

/-- C2: the parsers that receive provider-native non-SI units apply the
fixed conversion on every value — USA stage ft → m (× 0.3048), France
discharge L/s → m³/s (÷ 1000), Lithuania stage cm → m (÷ 100) — with the
spec's concrete instances 100 cm → 1.0 m, 1000 L/s → 1.0 m³/s and
1 ft → 0.3048 m.  (The other non-SI parser the claim cites, sweden.py's,
is dead code: its module cannot be imported, see `SwedenFetcher.moduleImport`.) -/
theorem c2_unit_conversions (vStage : String)
    (hv : vStage ∈ [constants.STAGE_DAILY_MEAN, constants.STAGE_DAILY_MAX,
        constants.STAGE_DAILY_MIN, constants.STAGE_INSTANT]) :
    (∀ (rows : List USAFetcher.RawRow) (df : List (Int × ℚ)),
        USAFetcher.parse_data rows vStage = .ok df →
        ∀ t q, (t, q) ∈ df →
          ∃ r ∈ rows, r.time = t ∧ ∃ v0, r.value = some v0 ∧ q = v0 * (3048 / 10000))
    ∧ (∀ (recs : List FranceFetcher.RawRec) (t : Int) (q : ℚ),
        (t, q) ∈ FranceFetcher.parse_data recs constants.DISCHARGE_DAILY_MEAN →
        ∃ r ∈ recs, r.grandeur = "QmnJ" ∧ r.dateObs = t ∧
          ∃ v0, r.resultat = some v0 ∧ q = v0 / 1000)
    ∧ (∀ (obs : List LithuaniaFetcher.Obs) (t : Int) (q : ℚ),
        (t, q) ∈ LithuaniaFetcher.parse_data obs constants.STAGE_DAILY_MEAN →
        ∃ o ∈ obs, o.dateUtc = some t ∧ ∃ v0, o.value = some v0 ∧ q = v0 / 100)
    ∧ LithuaniaFetcher.parse_data [⟨some 0, some 100⟩] constants.STAGE_DAILY_MEAN
        = [(0, 100 / 100)]
    ∧ FranceFetcher.parse_data [⟨"QmnJ", 0, some 1000⟩] constants.DISCHARGE_DAILY_MEAN
        = [(0, 1000 / 1000)]
    ∧ USAFetcher.parse_data [⟨0, some 1⟩] constants.STAGE_DAILY_MEAN
        = .ok [(0, 1 * (3048 / 10000))]
    ∧ (100 : ℚ) / 100 = 1 ∧ (1000 : ℚ) / 1000 = 1
    ∧ (1 : ℚ) * (3048 / 10000) = 381 / 1250 := by
  refine ⟨?_, ?_, ?_, by rfl, by rfl, by rfl, by norm_num, by norm_num, by norm_num⟩
  · intro rows df hp t q hq
    fin_cases hv <;>
    · cases rows with
      | nil =>
        simp only [USAFetcher.parse_data, List.isEmpty_nil, if_true, Except.ok.injEq] at hp
        subst hp
        cases hq
      | cons r rs =>
        injection hp with hdf
        rw [← hdf] at hq
        rcases List.mem_filterMap.mp hq with ⟨r0, hr0, heq⟩
        cases hv0 : r0.value with
        | none => rw [hv0] at heq; simp at heq
        | some v0 =>
          rw [hv0] at heq
          simp only [Option.map_some', Option.some.injEq, Prod.mk.injEq] at heq
          exact ⟨r0, hr0, heq.1, v0, hv0, heq.2.symm⟩
  · intro recs t q hq
    cases recs with
    | nil => cases hq
    | cons r rs =>
      rw [show FranceFetcher.parse_data (r :: rs) constants.DISCHARGE_DAILY_MEAN
          = sortByKey Prod.fst (((r :: rs).filter fun r => r.grandeur == "QmnJ").filterMap
              fun r => r.resultat.map fun v => (r.dateObs, v / 1000)) from rfl] at hq
      rw [mem_sortByKey] at hq
      rcases List.mem_filterMap.mp hq with ⟨r0, hr0, heq⟩
      rcases List.mem_filter.mp hr0 with ⟨hr0m, hr0g⟩
      cases hv0 : r0.resultat with
      | none => rw [hv0] at heq; simp at heq
      | some v0 =>
        rw [hv0] at heq
        simp only [Option.map_some', Option.some.injEq, Prod.mk.injEq] at heq
        exact ⟨r0, hr0m, by simpa using hr0g, heq.1, v0, hv0, heq.2.symm⟩
  · intro obs t q hq
    cases obs with
    | nil => cases hq
    | cons o os =>
      rw [show LithuaniaFetcher.parse_data (o :: os) constants.STAGE_DAILY_MEAN
          = sortByKey Prod.fst ((o :: os).filterMap fun o =>
              match o.dateUtc, o.value with
              | some t, some v =>
                  some (t, if constants.STAGE_DAILY_MEAN == constants.STAGE_DAILY_MEAN
                    then v / 100 else v)
              | _, _ => none) from rfl] at hq
      rw [mem_sortByKey] at hq
      rcases List.mem_filterMap.mp hq with ⟨o0, ho0, heq⟩
      cases hd0 : o0.dateUtc with
      | none => rw [hd0] at heq; simp at heq
      | some t0 =>
        cases hv0 : o0.value with
        | none => rw [hd0, hv0] at heq; simp at heq
        | some v0 =>
          rw [hd0, hv0] at heq
          simp only [beq_self_eq_true, if_true, Option.some.injEq, Prod.mk.injEq] at heq
          exact ⟨o0, ho0, by rw [hd0, heq.1], v0, hv0, heq.2.symm⟩

/-- C2 (witness): the theorem applied at the stage_daily_mean variable. -/
theorem c2_unit_conversions_witness :
    (constants.STAGE_DAILY_MEAN ∈ [constants.STAGE_DAILY_MEAN, constants.STAGE_DAILY_MAX,
        constants.STAGE_DAILY_MIN, constants.STAGE_INSTANT])
    ∧ ((∀ (rows : List USAFetcher.RawRow) (df : List (Int × ℚ)),
        USAFetcher.parse_data rows constants.STAGE_DAILY_MEAN = .ok df →
        ∀ t q, (t, q) ∈ df →
          ∃ r ∈ rows, r.time = t ∧ ∃ v0, r.value = some v0 ∧ q = v0 * (3048 / 10000))
    ∧ (∀ (recs : List FranceFetcher.RawRec) (t : Int) (q : ℚ),
        (t, q) ∈ FranceFetcher.parse_data recs constants.DISCHARGE_DAILY_MEAN →
        ∃ r ∈ recs, r.grandeur = "QmnJ" ∧ r.dateObs = t ∧
          ∃ v0, r.resultat = some v0 ∧ q = v0 / 1000)
    ∧ (∀ (obs : List LithuaniaFetcher.Obs) (t : Int) (q : ℚ),
        (t, q) ∈ LithuaniaFetcher.parse_data obs constants.STAGE_DAILY_MEAN →
        ∃ o ∈ obs, o.dateUtc = some t ∧ ∃ v0, o.value = some v0 ∧ q = v0 / 100)
    ∧ LithuaniaFetcher.parse_data [⟨some 0, some 100⟩] constants.STAGE_DAILY_MEAN
        = [(0, 100 / 100)]
    ∧ FranceFetcher.parse_data [⟨"QmnJ", 0, some 1000⟩] constants.DISCHARGE_DAILY_MEAN
        = [(0, 1000 / 1000)]
    ∧ USAFetcher.parse_data [⟨0, some 1⟩] constants.STAGE_DAILY_MEAN
        = .ok [(0, 1 * (3048 / 10000))]
    ∧ (100 : ℚ) / 100 = 1 ∧ (1000 : ℚ) / 1000 = 1
    ∧ (1 : ℚ) * (3048 / 10000) = 381 / 1250) :=
  ⟨List.mem_cons_self _ _,
   c2_unit_conversions constants.STAGE_DAILY_MEAN (List.mem_cons_self _ _)⟩

/-- C3 (counterexample): `NorwayFetcher.get_data` checks its API key
before validating the variable, so with no key configured an unsupported
variable yields an empty frame and no `ValueError` is raised — the claim
that every fetcher raises for a variable outside
`get_available_variables()` is false. -/
theorem c3_counterexample_norway_missing_key_no_raise :
    NorwayFetcher.get_data none 7 (.valid 0) (.valid 1) "bogus_variable" (.ok []) = .ok []
    ∧ "bogus_variable" ∉ NorwayFetcher.get_available_variables := ⟨by rfl, by decide⟩

/-- C3 (amended): for the Australia, USA, France, Japan and Lithuania
fetchers — and for Norway when an API key is configured — an unsupported
variable makes `get_data` raise `ValueError` synchronously, whatever the
network outcome (the result does not depend on `net`, i.e. the error
pre-empts any download); `NorwayFetcher` with a missing API key instead
returns an empty frame before the validation (see the counterexample); and
`PolandFetcher.get_data` raises `AttributeError`, not `ValueError`,
because its validation evaluates the nonexistent
`constants.WATER_TEMPERATURE` before the membership test. -/
theorem c3_amended_unsupported_variable_rejection (today : Int) (sd ed : utils.DateArg) (v : String)
    (hsd : sd ≠ .malformed) (hed : ed ≠ .malformed) :
    (v ∉ AustraliaFetcher.get_available_variables →
      ∀ net, AustraliaFetcher.get_data today sd ed v net
        = .error (.valueError ("Unsupported variable: " ++ v)))
    ∧ (v ∉ USAFetcher.get_available_variables →
      ∀ net, USAFetcher.get_data today sd ed v net
        = .error (.valueError ("Unsupported variable: " ++ v)))
    ∧ (v ∉ FranceFetcher.get_available_variables →
      ∀ net, FranceFetcher.get_data today sd ed v net
        = .error (.valueError ("Unsupported variable: " ++ v)))
    ∧ (v ∉ JapanFetcher.get_available_variables →
      ∀ netChunks, JapanFetcher.get_data today sd ed v netChunks
        = .error (.valueError ("Unsupported variable: " ++ v)))
    ∧ (v ∉ LithuaniaFetcher.get_available_variables →
      ∀ netChunks, LithuaniaFetcher.get_data today sd ed v netChunks
        = .error (.valueError ("Unsupported variable: " ++ v)))
    ∧ (∀ apiKey, pyTruthy apiKey = true →
      v ∉ NorwayFetcher.get_available_variables →
      ∀ net, NorwayFetcher.get_data apiKey today sd ed v net
        = .error (.valueError ("Unsupported variable: " ++ v)))
    ∧ (∀ rest, PolandFetcher.get_data today sd ed v rest
        = .error (.attributeError "WATER_TEMPERATURE")) := by
  cases sd <;> cases ed <;>
    first
      | exact absurd rfl hsd
      | exact absurd rfl hed
      | refine ⟨?_, ?_, ?_, ?_, ?_, ?_, ?_⟩ <;>
          first
            | (intro hnv net
               simp [AustraliaFetcher.get_data, USAFetcher.get_data,
                 FranceFetcher.get_data, JapanFetcher.get_data,
                 LithuaniaFetcher.get_data, utils.format_start_date,
                 utils.format_end_date, exceptBindOk, exceptThrowEq, hnv]
               done)
            | (intro apiKey hkey hnv net
               simp [NorwayFetcher.get_data, hkey, hnv, utils.format_start_date,
                 utils.format_end_date, exceptBindOk, exceptThrowEq]
               done)
            | (exact fun rest => rfl)

/-- C3 (witness): the amended theorem applied at a concrete input. -/
theorem c3_amended_unsupported_variable_rejection_witness :
    (utils.DateArg.valid 0 ≠ .malformed) ∧ (utils.DateArg.valid 1 ≠ .malformed)
    ∧ (("bogus_variable" ∉ AustraliaFetcher.get_available_variables →
        ∀ net, AustraliaFetcher.get_data 7 (.valid 0) (.valid 1) "bogus_variable" net
          = .error (.valueError ("Unsupported variable: " ++ "bogus_variable")))
      ∧ ("bogus_variable" ∉ USAFetcher.get_available_variables →
        ∀ net, USAFetcher.get_data 7 (.valid 0) (.valid 1) "bogus_variable" net
          = .error (.valueError ("Unsupported variable: " ++ "bogus_variable")))
      ∧ ("bogus_variable" ∉ FranceFetcher.get_available_variables →
        ∀ net, FranceFetcher.get_data 7 (.valid 0) (.valid 1) "bogus_variable" net
          = .error (.valueError ("Unsupported variable: " ++ "bogus_variable")))
      ∧ ("bogus_variable" ∉ JapanFetcher.get_available_variables →
        ∀ netChunks, JapanFetcher.get_data 7 (.valid 0) (.valid 1) "bogus_variable" netChunks
          = .error (.valueError ("Unsupported variable: " ++ "bogus_variable")))
      ∧ ("bogus_variable" ∉ LithuaniaFetcher.get_available_variables →
        ∀ netChunks, LithuaniaFetcher.get_data 7 (.valid 0) (.valid 1) "bogus_variable" netChunks
          = .error (.valueError ("Unsupported variable: " ++ "bogus_variable")))
      ∧ (∀ apiKey, pyTruthy apiKey = true →
        "bogus_variable" ∉ NorwayFetcher.get_available_variables →
        ∀ net, NorwayFetcher.get_data apiKey 7 (.valid 0) (.valid 1) "bogus_variable" net
          = .error (.valueError ("Unsupported variable: " ++ "bogus_variable")))
      ∧ (∀ rest, PolandFetcher.get_data 7 (.valid 0) (.valid 1) "bogus_variable" rest
          = .error (.attributeError "WATER_TEMPERATURE"))) :=
  ⟨by decide, by decide,
   c3_amended_unsupported_variable_rejection 7 (.valid 0) (.valid 1) "bogus_variable"
     (by decide) (by decide)⟩

/-- C4 (counterexample): `AustraliaFetcher.get_data` never clips the
parsed frame, so a provider row dated outside the requested
`[start_date, end_date]` interval (here day 99 against the request
[10, 20]) is returned as is — the claim is false for the Australia
fetcher cited as its source. -/
theorem c4_counterexample_australia_unclipped :
    AustraliaFetcher.get_data 0 (.valid 10) (.valid 20) constants.DISCHARGE
        (.ok (some [⟨99, some 5⟩])) = .ok [(99, 5)]
    ∧ ¬((99 : Int) ≤ 20) := ⟨by rfl, by decide⟩

/-- C4 (amended): the fetchers that clip in `get_data` do return no
timestamp outside the requested range — Japan keeps
`start <= t < end + 1 day` (sub-daily data up to the end of the end day),
Lithuania keeps `start <= t < end + 1 day` — whatever the provider sent
back; the Australia fetcher applies no clip and passes provider rows
through unchanged (see the counterexample), and USA and France likewise
rely on provider-side filtering. -/
theorem c4_amended_range_clipping (today s e : Int) (v : String) :
    (∀ netChunks df, JapanFetcher.get_data today (.valid s) (.valid e) v netChunks = .ok df →
      ∀ t q, (t, q) ∈ df → 24 * s ≤ t ∧ t < 24 * (e + 1))
    ∧ (∀ netChunks df, LithuaniaFetcher.get_data today (.valid s) (.valid e) v netChunks = .ok df →
      ∀ t q, (t, q) ∈ df → s ≤ t ∧ t < e + 1) := by
  refine ⟨?_, ?_⟩
  · intro netChunks df hp t q htq
    by_cases hv : v ∈ JapanFetcher.get_available_variables
    · simp only [JapanFetcher.get_data, utils.format_start_date, utils.format_end_date,
        exceptBindOk, if_pos hv, exceptPureEq, Except.ok.injEq, tryExceptD] at hp
      split at hp
      · next a heq =>
        subst hp
        split at heq
        · injection heq with ha
          rw [← ha] at htq; cases htq
        · split at heq
          · next h2 =>
            injection heq with ha
            rw [List.isEmpty_iff] at h2
            rw [← ha, h2] at htq; cases htq
          · injection heq with ha
            rw [← ha] at htq
            rcases List.mem_filter.mp htq with ⟨_, hcond⟩
            simp only [Bool.and_eq_true, decide_eq_true_eq] at hcond
            exact hcond
      · next e0 heq =>
        rw [← hp] at htq; cases htq
    · simp only [JapanFetcher.get_data, utils.format_start_date, utils.format_end_date,
        exceptBindOk, if_neg hv, exceptThrowEq] at hp
      exact (Except.noConfusion hp)
  · intro netChunks df hp t q htq
    by_cases hv : v ∈ LithuaniaFetcher.get_available_variables
    · simp only [LithuaniaFetcher.get_data, utils.format_start_date, utils.format_end_date,
        exceptBindOk, if_pos hv, exceptPureEq, Except.ok.injEq, tryExceptD] at hp
      split at hp
      · next a heq =>
        subst hp
        split at heq
        · next h2 =>
          injection heq with ha
          rw [List.isEmpty_iff] at h2
          rw [← ha, h2] at htq; cases htq
        · injection heq with ha
          rw [← ha] at htq
          rcases List.mem_filter.mp htq with ⟨_, hcond⟩
          simp only [Bool.and_eq_true, decide_eq_true_eq] at hcond
          exact hcond
      · next e0 heq =>
        rw [← hp] at htq; cases htq
    · simp only [LithuaniaFetcher.get_data, utils.format_start_date, utils.format_end_date,
        exceptBindOk, if_neg hv, exceptThrowEq] at hp
      exact (Except.noConfusion hp)

/-- C4 (witness): the amended theorem applied at a concrete input. -/
theorem c4_amended_range_clipping_witness :
    (∀ netChunks df,
      JapanFetcher.get_data 0 (.valid 0) (.valid 1) constants.DISCHARGE_DAILY_MEAN netChunks
        = .ok df → ∀ t q, (t, q) ∈ df → 24 * 0 ≤ t ∧ t < 24 * (1 + 1))
    ∧ (∀ netChunks df,
      LithuaniaFetcher.get_data 0 (.valid 0) (.valid 1) constants.DISCHARGE_DAILY_MEAN netChunks
        = .ok df → ∀ t q, (t, q) ∈ df → 0 ≤ t ∧ t < 1 + 1) :=
  c4_amended_range_clipping 0 0 1 constants.DISCHARGE_DAILY_MEAN

/-- C5 (counterexample): neither `FranceFetcher._parse_data` nor the
surrounding `get_data` deduplicates timestamps: two Hubeau records on the
same day both survive, so the returned index has a duplicate and is not
strictly increasing. -/
theorem c5_counterexample_france_duplicate_timestamps :
    FranceFetcher.get_data 0 (.valid 0) (.valid 10) constants.DISCHARGE_DAILY_MEAN
        (.ok [⟨"QmnJ", 3, some 1000⟩, ⟨"QmnJ", 3, some 2000⟩])
      = .ok [(3, 1000 / 1000), (3, 2000 / 1000)]
    ∧ ([((3 : Int), (1000 : ℚ) / 1000), (3, 2000 / 1000)].map Prod.fst = [3, 3]
        ∧ ¬((3 : Int) < 3)) := ⟨by rfl, by rfl, by decide⟩

theorem exceptMapOk {α β : Type} (a : α) (f : α → β) :
    ((Except.ok a : Except PyErr α).map f) = Except.ok (f a) := rfl

theorem exceptMapErr {α β : Type} (e : PyErr) (f : α → β) :
    ((Except.error e : Except PyErr α).map f) = Except.error e := rfl

theorem france_parse_sorted (raw : List FranceFetcher.RawRec) (v : String) :
    (FranceFetcher.parse_data raw v).Pairwise (fun a b => a.1 ≤ b.1) := by
  rcases raw with _ | ⟨r, rs⟩
  · exact List.Pairwise.nil
  · cases hc : FranceFetcher.get_variable_code v <;>
      cases hf : FranceFetcher.conversion_factor v <;>
        simp only [FranceFetcher.parse_data, List.isEmpty_cons, if_false, Bool.false_eq_true,
          hc, hf] <;>
      first
        | exact List.Pairwise.nil
        | exact sortByKey_pairwise Prod.fst _

theorem japan_parse_sorted (chunks : List JapanFetcher.Chunk) :
    (JapanFetcher.parse_data chunks).Pairwise (fun a b => a.1 ≤ b.1) := by
  rcases chunks with _ | ⟨c, cs⟩
  · exact List.Pairwise.nil
  · exact sortByKey_pairwise Prod.fst _

/-- C5 (amended): for the France and Japan fetchers (the ones the claim
cites), a successfully returned frame is sorted in ascending
(nondecreasing) timestamp order, including when it was concatenated from
several per-chunk payloads — but duplicate timestamps are NOT removed:
two source records that collide on a timestamp both appear (see the
counterexample), so the index is not strictly increasing. -/
theorem c5_amended_sorted_not_deduplicated (today : Int) (sd ed : utils.DateArg) (v : String) :
    (∀ net df, FranceFetcher.get_data today sd ed v net = .ok df →
      (df.map Prod.fst).Pairwise (fun a b : Int => a ≤ b))
    ∧ (∀ netChunks df, JapanFetcher.get_data today sd ed v netChunks = .ok df →
      (df.map Prod.fst).Pairwise (fun a b : Int => a ≤ b)) := by
  constructor
  · intro net df hp
    rw [List.pairwise_map]
    cases sd <;> cases ed <;>
      first
        | exact (Except.noConfusion hp)
        | (by_cases hv : v ∈ FranceFetcher.get_available_variables
           · simp only [FranceFetcher.get_data, FranceFetcher.download_data,
               utils.format_start_date, utils.format_end_date, exceptBindOk,
               if_pos hv, exceptPureEq, Except.ok.injEq] at hp
             cases net with
             | error err =>
               rw [exceptMapErr] at hp
               rw [← hp]
               exact List.Pairwise.nil
             | ok raw =>
               rw [exceptMapOk] at hp
               rw [show tryExceptD (Except.ok (FranceFetcher.parse_data raw v)) []
                   = FranceFetcher.parse_data raw v from rfl] at hp
               rw [← hp]
               exact france_parse_sorted raw v
           · simp only [FranceFetcher.get_data, utils.format_start_date,
               utils.format_end_date, exceptBindOk, if_neg hv, exceptThrowEq] at hp
             exact (Except.noConfusion hp))
  · intro netChunks df hp
    rw [List.pairwise_map]
    cases sd <;> cases ed <;>
      first
        | exact (Except.noConfusion hp)
        | (by_cases hv : v ∈ JapanFetcher.get_available_variables
           · simp only [JapanFetcher.get_data, utils.format_start_date,
               utils.format_end_date, exceptBindOk, if_pos hv, exceptPureEq,
               Except.ok.injEq, tryExceptD] at hp
             split at hp
             · next a heq =>
               subst hp
               split at heq
               · injection heq with ha
                 rw [← ha]
                 exact List.Pairwise.nil
               · split at heq
                 · injection heq with ha
                   rw [← ha]
                   exact japan_parse_sorted _
                 · injection heq with ha
                   rw [← ha]
                   exact List.Pairwise.sublist (List.filter_sublist _) (japan_parse_sorted _)
             · next e0 heq =>
               rw [← hp]
               exact List.Pairwise.nil
           · simp only [JapanFetcher.get_data, utils.format_start_date,
               utils.format_end_date, exceptBindOk, if_neg hv, exceptThrowEq] at hp
             exact (Except.noConfusion hp))

/-- C5 (witness): the amended theorem applied at a concrete input. -/
theorem c5_amended_sorted_not_deduplicated_witness :
    (∀ net df,
      FranceFetcher.get_data 0 (.valid 0) (.valid 10) constants.DISCHARGE_DAILY_MEAN net
        = .ok df → (df.map Prod.fst).Pairwise (fun a b : Int => a ≤ b))
    ∧ (∀ netChunks df,
      JapanFetcher.get_data 0 (.valid 0) (.valid 10) constants.DISCHARGE_DAILY_MEAN netChunks
        = .ok df → (df.map Prod.fst).Pairwise (fun a b : Int => a ≤ b)) :=
  c5_amended_sorted_not_deduplicated 0 (.valid 0) (.valid 10) constants.DISCHARGE_DAILY_MEAN

/-- C7: `BrazilFetcher._get_token` returns the cached token with no
exchange when the clock is strictly before the stored expiry; otherwise
it performs the exchange and, on success, caches the token with expiry
`now + 840` (the 14-minute safety margin) and returns it; on a failed
exchange — or when credentials are missing (no exchange at all) — it
returns `None` without raising.  A token seeded to expire at `t + 1` is
therefore refetched by a call at `t + 2` and served from cache by a call
at `t`. -/
theorem c7_token_cache_and_expiry (u p tok : String) (now exp : ℚ)
    (ex : BrazilFetcher.ExchangeOutcome)
    (hu : pyTruthy (some u) = true) (hpw : pyTruthy (some p) = true) :
    (pyTruthy (some tok) = true → now < exp →
      BrazilFetcher.get_token now ⟨some u, some p, some tok, exp⟩ ex
        = (some tok, ⟨some u, some p, some tok, exp⟩, false))
    ∧ (¬ now < exp → ∀ t2,
      BrazilFetcher.get_token now ⟨some u, some p, some tok, exp⟩ (.success t2)
        = (some t2, ⟨some u, some p, some t2, now + 840⟩, true))
    ∧ (¬ now < exp →
      BrazilFetcher.get_token now ⟨some u, some p, some tok, exp⟩ .netError
        = (none, ⟨some u, some p, some tok, exp⟩, true))
    ∧ (¬ now < exp →
      BrazilFetcher.get_token now ⟨some u, some p, some tok, exp⟩ .authFailed
        = (none, ⟨some u, some p, some tok, exp⟩, true))
    ∧ (¬ now < exp →
      BrazilFetcher.get_token now ⟨some u, some p, some tok, exp⟩ .badResponse
        = (none, ⟨some u, some p, some tok, exp⟩, true))
    ∧ (∀ st : BrazilFetcher.AuthState,
      pyTruthy st.username = false ∨ pyTruthy st.password = false →
      BrazilFetcher.get_token now st ex = (none, st, false)) := by
  refine ⟨?_, ?_, ?_, ?_, ?_, ?_⟩
  · intro htok hlt
    simp [BrazilFetcher.get_token, hu, hpw, htok, hlt]
  · intro hnlt t2
    simp [BrazilFetcher.get_token, hu, hpw, hnlt]
  · intro hnlt
    simp [BrazilFetcher.get_token, hu, hpw, hnlt]
  · intro hnlt
    simp [BrazilFetcher.get_token, hu, hpw, hnlt]
  · intro hnlt
    simp [BrazilFetcher.get_token, hu, hpw, hnlt]
  · intro st hcred
    rcases hcred with h | h <;> simp [BrazilFetcher.get_token, h]

/-- C8: the HYDAT bulk-cache build is idempotent — when the resolved
database file already exists, `_download_hydat` returns `True` without
downloading the archive and without touching the filesystem; after any
successful build, a second build downloads nothing; and
`_get_hydat_connection` connects directly when the store exists. -/
theorem c8_bulk_cache_idempotent (link : String) (fs : List String)
    (archive archive2 : Except PyErr Bool) :
    (CanadaFetcher.resolvedHydatPath link ∈ fs →
      CanadaFetcher.download_hydat (some link) fs archive = (true, fs, false))
    ∧ (∀ fs1 dl1,
      CanadaFetcher.download_hydat (some link) fs archive = (true, fs1, dl1) →
      CanadaFetcher.download_hydat (some link) fs1 archive2 = (true, fs1, false))
    ∧ (CanadaFetcher.resolvedHydatPath link ∈ fs →
      CanadaFetcher.get_hydat_connection (CanadaFetcher.resolvedHydatPath link) fs
        (some link) archive = .ok fs) := by
  refine ⟨?_, ?_, ?_⟩
  · intro h
    simp [CanadaFetcher.download_hydat, h]
  · intro fs1 dl1 h1
    by_cases hmem : CanadaFetcher.resolvedHydatPath link ∈ fs
    · simp [CanadaFetcher.download_hydat, hmem] at h1
      obtain ⟨h2, h3⟩ := h1
      subst h2
      simp [CanadaFetcher.download_hydat, hmem]
    · cases archive with
      | ok b =>
        cases b with
        | true =>
          simp [CanadaFetcher.download_hydat, hmem] at h1
          obtain ⟨h2, h3⟩ := h1
          subst h2
          simp [CanadaFetcher.download_hydat]
        | false =>
          simp [CanadaFetcher.download_hydat, hmem] at h1
      | error e =>
        simp [CanadaFetcher.download_hydat, hmem] at h1
  · intro h
    simp [CanadaFetcher.get_hydat_connection, h]

/-- C7 (witness): the theorem applied at two concrete clocks around a
token seeded to expire at 1: a call at clock 2 refetches, a call at
clock 0 is served from the cache. -/
theorem c7_token_cache_and_expiry_witness :
    (pyTruthy (some "user") = true) ∧ (pyTruthy (some "pw") = true)
    ∧ ((pyTruthy (some "tk") = true → (2 : ℚ) < 1 →
        BrazilFetcher.get_token 2 ⟨some "user", some "pw", some "tk", 1⟩ .netError
          = (some "tk", ⟨some "user", some "pw", some "tk", 1⟩, false))
      ∧ (¬ (2 : ℚ) < 1 → ∀ t2,
        BrazilFetcher.get_token 2 ⟨some "user", some "pw", some "tk", 1⟩ (.success t2)
          = (some t2, ⟨some "user", some "pw", some t2, 2 + 840⟩, true))
      ∧ (¬ (2 : ℚ) < 1 →
        BrazilFetcher.get_token 2 ⟨some "user", some "pw", some "tk", 1⟩ .netError
          = (none, ⟨some "user", some "pw", some "tk", 1⟩, true))
      ∧ (¬ (2 : ℚ) < 1 →
        BrazilFetcher.get_token 2 ⟨some "user", some "pw", some "tk", 1⟩ .authFailed
          = (none, ⟨some "user", some "pw", some "tk", 1⟩, true))
      ∧ (¬ (2 : ℚ) < 1 →
        BrazilFetcher.get_token 2 ⟨some "user", some "pw", some "tk", 1⟩ .badResponse
          = (none, ⟨some "user", some "pw", some "tk", 1⟩, true))
      ∧ (∀ st : BrazilFetcher.AuthState,
        pyTruthy st.username = false ∨ pyTruthy st.password = false →
        BrazilFetcher.get_token 2 st .netError = (none, st, false)))
    ∧ (pyTruthy (some "tk") = true → (0 : ℚ) < 1 →
        BrazilFetcher.get_token 0 ⟨some "user", some "pw", some "tk", 1⟩ .netError
          = (some "tk", ⟨some "user", some "pw", some "tk", 1⟩, false)) :=
  ⟨by decide, by decide,
   c7_token_cache_and_expiry "user" "pw" "tk" 2 1 .netError (by decide) (by decide),
   (c7_token_cache_and_expiry "user" "pw" "tk" 0 1 .netError (by decide) (by decide)).1⟩

/-- C8 (witness): the theorem applied at a concrete link named like the
real archives, with the resolved `.sqlite3` path already on disk. -/
theorem c8_bulk_cache_idempotent_witness :
    (CanadaFetcher.resolvedHydatPath "www/Hydat_sqlite3_20240101.zip"
        ∈ ["rivretrieve/data/Hydat_sqlite3_20240101.sqlite3"])
    ∧ ((CanadaFetcher.resolvedHydatPath "www/Hydat_sqlite3_20240101.zip"
        ∈ ["rivretrieve/data/Hydat_sqlite3_20240101.sqlite3"] →
      CanadaFetcher.download_hydat (some "www/Hydat_sqlite3_20240101.zip")
        ["rivretrieve/data/Hydat_sqlite3_20240101.sqlite3"] (.ok true)
        = (true, ["rivretrieve/data/Hydat_sqlite3_20240101.sqlite3"], false))
    ∧ (∀ fs1 dl1,
      CanadaFetcher.download_hydat (some "www/Hydat_sqlite3_20240101.zip")
        ["rivretrieve/data/Hydat_sqlite3_20240101.sqlite3"] (.ok true) = (true, fs1, dl1) →
      CanadaFetcher.download_hydat (some "www/Hydat_sqlite3_20240101.zip") fs1 (.ok true)
        = (true, fs1, false))
    ∧ (CanadaFetcher.resolvedHydatPath "www/Hydat_sqlite3_20240101.zip"
        ∈ ["rivretrieve/data/Hydat_sqlite3_20240101.sqlite3"] →
      CanadaFetcher.get_hydat_connection
        (CanadaFetcher.resolvedHydatPath "www/Hydat_sqlite3_20240101.zip")
        ["rivretrieve/data/Hydat_sqlite3_20240101.sqlite3"]
        (some "www/Hydat_sqlite3_20240101.zip") (.ok true)
        = .ok ["rivretrieve/data/Hydat_sqlite3_20240101.sqlite3"])) :=
  ⟨by decide,
   c8_bulk_cache_idempotent "www/Hydat_sqlite3_20240101.zip"
     ["rivretrieve/data/Hydat_sqlite3_20240101.sqlite3"] (.ok true) (.ok true)⟩

theorem qget_drop (l : List ℚ) (n m : ℕ) : (l.drop n).get? m = l.get? (n + m) := by
  simp [List.get?_eq_getElem?, List.getElem?_drop]

theorem qget_append (l1 l2 : List ℚ) (n : ℕ) (h : n < l1.length) :
    (l1 ++ l2).get? n = l1.get? n := by
  simp [List.get?_eq_getElem?, List.getElem?_append_left h]

theorem qget_concat (l : List ℚ) (a : ℚ) : (l ++ [a]).get? l.length = some a := by
  simp [List.get?_eq_getElem?]

theorem qget_none (l : List ℚ) (n : ℕ) (h : l.length ≤ n) : l.get? n = none :=
  List.get?_eq_none.mpr h

theorem qdrop_drop (l : List ℚ) (n m : ℕ) : (l.drop m).drop n = l.drop (n + m) := by
  rw [List.drop_drop, Nat.add_comm]

/-- `evict` drops exactly an initial segment, each member of which had left
the 60-second window at clock `now`. -/
theorem evict_drop (now : ℚ) (q : List ℚ) :
    ∃ m, LithuaniaFetcher.evict now q = q.drop m ∧ m ≤ q.length
      ∧ ∀ j x, j < m → q.get? j = some x → 60 < now - x := by
  induction q with
  | nil => exact ⟨0, rfl, Nat.le_refl 0, fun j x hj => absurd hj (Nat.not_lt_zero j)⟩
  | cons t rest ih =>
    by_cases h : 60 < now - t
    · rcases ih with ⟨m, hm, hml, hmo⟩
      refine ⟨m + 1, ?_, by simpa using Nat.succ_le_succ hml, ?_⟩
      · rw [LithuaniaFetcher.evict, if_pos h, hm, List.drop_succ_cons]
      · intro j x hj hget
        cases j with
        | zero =>
          simp only [List.get?] at hget
          injection hget with hx
          rw [← hx]
          exact h
        | succ j =>
          exact hmo j x (Nat.lt_of_succ_lt_succ hj) hget
    · refine ⟨0, ?_, Nat.zero_le _, fun j x hj => absurd hj (Nat.not_lt_zero j)⟩
      rw [LithuaniaFetcher.evict, if_neg h]
      rfl

/-- The head surviving an evict is still inside the window. -/
theorem evict_head_le (now : ℚ) (q : List ℚ) (t0 : ℚ) (rest : List ℚ)
    (h : LithuaniaFetcher.evict now q = t0 :: rest) : now - t0 ≤ 60 := by
  induction q with
  | nil => exact absurd h (by rw [LithuaniaFetcher.evict]; exact fun hc => List.noConfusion hc)
  | cons t r ih =>
    by_cases hc : 60 < now - t
    · rw [LithuaniaFetcher.evict, if_pos hc] at h
      exact ih h
    · rw [LithuaniaFetcher.evict, if_neg hc] at h
      injection h with h1 h2
      rw [← h1]
      exact le_of_not_lt hc

/-- One throttle call advances the clock monotonically and preserves the
deque/history invariant and the spacing property. -/
theorem throttleStep_preserves (cap : ℕ) (hcap : 0 < cap) (now : ℚ) (q hist : List ℚ)
    (hinv : LithuaniaFetcher.ThrInv cap now q hist)
    (hsp : LithuaniaFetcher.SpacedBy cap hist) :
    now ≤ (LithuaniaFetcher.throttleStep cap now q).1
    ∧ LithuaniaFetcher.ThrInv cap (LithuaniaFetcher.throttleStep cap now q).1
        (LithuaniaFetcher.throttleStep cap now q).2
        (hist ++ [(LithuaniaFetcher.throttleStep cap now q).1])
    ∧ LithuaniaFetcher.SpacedBy cap (hist ++ [(LithuaniaFetcher.throttleStep cap now q).1]) := by
  obtain ⟨k, hk, hq, hold, hlen⟩ := hinv
  obtain ⟨m, hmeq, hmle, hmold⟩ := evict_drop now q
  have hq1 : LithuaniaFetcher.evict now q = hist.drop (m + k) := by
    rw [hmeq, hq, qdrop_drop]
  have hlen_q : q.length = hist.length - k := by rw [hq, List.length_drop]
  have hkm : m + k ≤ hist.length := by omega
  have hlen_q1 : (LithuaniaFetcher.evict now q).length = hist.length - (m + k) := by
    rw [hq1, List.length_drop]
  have haux : ∀ j x, j < m + k → hist.get? j = some x → x + 60 < now := by
    intro j x hj hget
    by_cases hjk : j < k
    · exact hold j x hjk hget
    · have hj2 : j - k < m := by omega
      have hgq : q.get? (j - k) = some x := by
        rw [hq, qget_drop, show k + (j - k) = j by omega]
        exact hget
      have h60 := hmold (j - k) x hj2 hgq
      linarith
  by_cases hcond : cap ≤ (LithuaniaFetcher.evict now q).length
  · -- blocking branch: the deque is full, the call sleeps
    rcases hq1c : LithuaniaFetcher.evict now q with _ | ⟨t0, rest⟩
    · rw [hq1c] at hcond
      simp at hcond
      omega
    · have hq1x : (t0 :: rest : List ℚ) = hist.drop (m + k) := by rw [← hq1c, hq1]
      have hle60 : now - t0 ≤ 60 := evict_head_le now q t0 rest hq1c
      have hstep : LithuaniaFetcher.throttleStep cap now q
          = (now + (60 - (now - t0) + 1 / 10),
             LithuaniaFetcher.pushMax cap
               (LithuaniaFetcher.evict (now + (60 - (now - t0) + 1 / 10)) (t0 :: rest))
               (now + (60 - (now - t0) + 1 / 10))) := by
        simp only [LithuaniaFetcher.throttleStep, hq1c]
        rw [if_pos (by rw [hq1c] at hcond; exact hcond)]
      set now2 : ℚ := now + (60 - (now - t0) + 1 / 10) with hnow2
      have hmono : now ≤ now2 := by rw [hnow2]; linarith
      have hgt : 60 < now2 - t0 := by rw [hnow2]; linarith
      have hevict2 : LithuaniaFetcher.evict now2 (t0 :: rest)
          = LithuaniaFetcher.evict now2 rest := by
        rw [LithuaniaFetcher.evict, if_pos hgt]
      obtain ⟨m2, hm2eq, hm2le, hm2old⟩ := evict_drop now2 rest
      have hrest : rest = hist.drop (m + k + 1) := by
        have h1 : (t0 :: rest).drop 1 = (hist.drop (m + k)).drop 1 := by rw [hq1x]
        simpa [qdrop_drop] using h1
      have ht0 : hist.get? (m + k) = some t0 := by
        have h0 : (t0 :: rest).get? 0 = (hist.drop (m + k)).get? 0 := by rw [hq1x]
        rw [qget_drop, Nat.add_zero] at h0
        exact h0.symm
      have hq2 : LithuaniaFetcher.evict now2 rest = hist.drop (m2 + (m + k + 1)) := by
        rw [hm2eq, hrest, qdrop_drop]
      have hconsLen : m + k < hist.length := by
        have := congrArg List.length hq1x
        simp [List.length_drop] at this
        omega
      have hq1cap : rest.length + 1 = cap := by
        have hup : (LithuaniaFetcher.evict now q).length ≤ cap := by
          rw [hmeq, List.length_drop]
          omega
        rw [hq1c] at hup hcond
        simp at hup hcond
        omega
      have hlenrest : rest.length = hist.length - (m + k + 1) := by
        rw [hrest, List.length_drop]
      have hk2 : m2 + (m + k + 1) ≤ hist.length := by omega
      have hold2 : ∀ j x, j < m2 + (m + k + 1) → hist.get? j = some x → x + 60 < now2 := by
        intro j x hj hget
        by_cases hj1 : j < m + k
        · have := haux j x hj1 hget
          linarith
        · by_cases hj2 : j = m + k
          · rw [hj2, ht0] at hget
            injection hget with hx
            rw [← hx]
            linarith
          · have hj3 : j - (m + k + 1) < m2 := by omega
            have hgr : rest.get? (j - (m + k + 1)) = some x := by
              rw [hrest, qget_drop, show m + k + 1 + (j - (m + k + 1)) = j by omega]
              exact hget
            have h60 := hm2old (j - (m + k + 1)) x hj3 hgr
            linarith
      have hq2len : (LithuaniaFetcher.evict now2 rest).length < cap := by
        rw [hq2, List.length_drop]
        omega
      have hpush : LithuaniaFetcher.pushMax cap (LithuaniaFetcher.evict now2 rest) now2
          = LithuaniaFetcher.evict now2 rest ++ [now2] := by
        rw [LithuaniaFetcher.pushMax, if_pos hq2len]
      rw [hstep, hevict2, hpush]
      refine ⟨hmono, ⟨m2 + (m + k + 1), ?_, ?_, ?_, ?_⟩, ?_⟩
      · simp only [List.length_append, List.length_cons, List.length_nil]
        omega
      · rw [List.drop_append_of_le_length hk2, hq2]
      · intro j x hj hget
        rw [qget_append _ _ _ (by omega)] at hget
        exact hold2 j x hj hget
      · simp only [List.length_append, List.length_cons, List.length_nil]
        rw [hq2, List.length_drop]
        omega
      · -- SpacedBy on the extended history
        intro i x y hx hy
        rcases lt_trichotomy (i + cap) hist.length with hlt | heq | hgt2
        · rw [qget_append _ _ _ hlt] at hy
          rw [qget_append _ _ _ (by omega)] at hx
          exact hsp i x y hx hy
        · have hi : i < hist.length := by omega
          rw [qget_append _ _ _ hi] at hx
          have hy2 : y = now2 := by
            rw [heq, qget_concat] at hy
            injection hy with h
            exact h.symm
          have hLL : hist.length = (m + k) + cap := by
            have hc := congrArg List.length hq1x
            simp only [List.length_cons, List.length_drop] at hc
            omega
          have hik : i < m2 + (m + k + 1) := by omega
          rw [hy2]
          exact hold2 i x hik hx
        · have : (hist ++ [now2]).get? (i + cap) = none := by
            apply qget_none
            simp only [List.length_append, List.length_cons, List.length_nil]
            omega
          rw [this] at hy
          exact Option.noConfusion hy
  · -- non-blocking branch: just evict and record
    have hlt : (LithuaniaFetcher.evict now q).length < cap := lt_of_not_le hcond
    have hstep : LithuaniaFetcher.throttleStep cap now q
        = (now, LithuaniaFetcher.evict now q ++ [now]) := by
      simp only [LithuaniaFetcher.throttleStep]
      rw [if_neg hcond, LithuaniaFetcher.pushMax, if_pos hlt]
    rw [hstep]
    refine ⟨le_refl now, ⟨m + k, ?_, ?_, ?_, ?_⟩, ?_⟩
    · simp only [List.length_append, List.length_cons, List.length_nil]
      omega
    · rw [List.drop_append_of_le_length hkm, hq1]
    · intro j x hj hget
      rw [qget_append _ _ _ (by omega)] at hget
      exact haux j x hj hget
    · simp only [List.length_append, List.length_cons, List.length_nil]
      omega
    · intro i x y hx hy
      rcases lt_trichotomy (i + cap) hist.length with hlt2 | heq | hgt2
      · rw [qget_append _ _ _ hlt2] at hy
        rw [qget_append _ _ _ (by omega)] at hx
        exact hsp i x y hx hy
      · have hi : i < hist.length := by omega
        rw [qget_append _ _ _ hi] at hx
        have hy2 : y = now := by
          rw [heq, qget_concat] at hy
          injection hy with h
          exact h.symm
        have hik : i < m + k := by omega
        rw [hy2]
        exact haux i x hik hx
      · have hnone : (hist ++ [now]).get? (i + cap) = none := by
          apply qget_none
          simp only [List.length_append, List.length_cons, List.length_nil]
          omega
        rw [hnone] at hy
        exact Option.noConfusion hy

/-- The invariant is stable under letting the clock advance. -/
theorem ThrInv_mono (cap : ℕ) (now now2 : ℚ) (q hist : List ℚ)
    (h : LithuaniaFetcher.ThrInv cap now q hist) (hle : now ≤ now2) :
    LithuaniaFetcher.ThrInv cap now2 q hist := by
  obtain ⟨k, hk, hq, hold, hlen⟩ := h
  exact ⟨k, hk, hq, fun j x hj hg => lt_of_lt_of_le (hold j x hj hg) hle, hlen⟩

/-- A whole throttled run preserves the invariant, keeps the recorded
times spaced and sorted, and bounds the deque by the cap. -/
theorem throttleRun_preserves (cap : ℕ) (hcap : 0 < cap) :
    ∀ (delays : List ℚ) (now : ℚ) (q hist : List ℚ),
      (∀ d ∈ delays, 0 ≤ d) →
      LithuaniaFetcher.ThrInv cap now q hist →
      LithuaniaFetcher.SpacedBy cap hist →
      LithuaniaFetcher.SpacedBy cap
          (hist ++ (LithuaniaFetcher.throttleRun cap now q delays).2)
      ∧ ((LithuaniaFetcher.throttleRun cap now q delays).1.2).length ≤ cap
      ∧ List.Pairwise (· ≤ ·) (LithuaniaFetcher.throttleRun cap now q delays).2
      ∧ ∀ t ∈ (LithuaniaFetcher.throttleRun cap now q delays).2, now ≤ t := by
  intro delays
  induction delays with
  | nil =>
    intro now q hist hd hinv hsp
    refine ⟨by simpa [LithuaniaFetcher.throttleRun] using hsp, ?_, List.Pairwise.nil,
      by intro t ht; simp [LithuaniaFetcher.throttleRun] at ht⟩
    obtain ⟨k, hk, hq, hold, hlen⟩ := hinv
    simpa [LithuaniaFetcher.throttleRun] using hlen
  | cons d ds ih =>
    intro now q hist hd hinv hsp
    have hd0 : 0 ≤ d := hd d (List.mem_cons_self d ds)
    have hds : ∀ x ∈ ds, 0 ≤ x := fun x hx => hd x (List.mem_cons_of_mem d hx)
    have hinv1 : LithuaniaFetcher.ThrInv cap (now + d) q hist :=
      ThrInv_mono cap now (now + d) q hist hinv (by linarith)
    obtain ⟨hmono, hinv2, hsp2⟩ :=
      throttleStep_preserves cap hcap (now + d) q hist hinv1 hsp
    obtain ⟨ihsp, ihlen, ihpw, ihub⟩ :=
      ih (LithuaniaFetcher.throttleStep cap (now + d) q).1
        (LithuaniaFetcher.throttleStep cap (now + d) q).2
        (hist ++ [(LithuaniaFetcher.throttleStep cap (now + d) q).1]) hds hinv2 hsp2
    have hrun : LithuaniaFetcher.throttleRun cap now q (d :: ds)
        = ((LithuaniaFetcher.throttleRun cap
              (LithuaniaFetcher.throttleStep cap (now + d) q).1
              (LithuaniaFetcher.throttleStep cap (now + d) q).2 ds).1,
           (LithuaniaFetcher.throttleStep cap (now + d) q).1
             :: (LithuaniaFetcher.throttleRun cap
                  (LithuaniaFetcher.throttleStep cap (now + d) q).1
                  (LithuaniaFetcher.throttleStep cap (now + d) q).2 ds).2) := by
      rfl
    rw [hrun]
    have hnowle : now ≤ (LithuaniaFetcher.throttleStep cap (now + d) q).1 := by
      calc now ≤ now + d := by linarith
        _ ≤ _ := hmono
    refine ⟨?_, ihlen, List.Pairwise.cons ihub ihpw, ?_⟩
    · have hassoc : ∀ (ts : List ℚ) (x : ℚ), hist ++ x :: ts = (hist ++ [x]) ++ ts := by
        intro ts x
        simp
      rw [hassoc]
      exact ihsp
    · intro t ht
      rcases List.mem_cons.mp ht with h1 | h2
      · rw [h1]
        exact hnowle
      · exact le_trans hnowle (ihub t h2)

/-- C6: the `_throttle_requests` sliding-window limiter.  Before each
request, entries older than 60 s are evicted; a call finding the deque at
the cap sleeps until the oldest entry has left the window before
recording (this is the `throttleStep` definition).  Consequently, for any
run from an empty deque with nonnegative inter-arrival delays: recorded
times `cap` positions apart are more than 60 s apart (`SpacedBy` — so at
most `cap` recorded requests fall in any sliding 60-second window, and
the `(cap+1)`-th queued request starts at least 60 s after the 1st, the
`0 + cap` instance below), the recorded times are nondecreasing, and the
source's cap is 180. -/
theorem c6_rate_limiter_sliding_window (cap : ℕ) (hcap : 0 < cap)
    (start : ℚ) (delays : List ℚ) (hd : ∀ d ∈ delays, 0 ≤ d) :
    LithuaniaFetcher.SpacedBy cap (LithuaniaFetcher.throttleTimes cap start delays)
    ∧ List.Pairwise (· ≤ ·) (LithuaniaFetcher.throttleTimes cap start delays)
    ∧ (∀ x y, (LithuaniaFetcher.throttleTimes cap start delays).get? 0 = some x →
        (LithuaniaFetcher.throttleTimes cap start delays).get? (0 + cap) = some y →
        x + 60 < y)
    ∧ LithuaniaFetcher.requestCap = 180 := by
  have hinv : LithuaniaFetcher.ThrInv cap start [] [] :=
    ⟨0, Nat.le_refl 0, rfl, fun j x hj => absurd hj (Nat.not_lt_zero j), by simp⟩
  have hsp : LithuaniaFetcher.SpacedBy cap [] := by
    intro i x y hx _
    rw [qget_none [] i (by simp)] at hx
    exact Option.noConfusion hx
  obtain ⟨h1, _h2, h3, _h4⟩ :=
    throttleRun_preserves cap hcap delays start [] [] hd hinv hsp
  rw [List.nil_append] at h1
  exact ⟨h1, h3, fun x y hx hy => h1 0 x y hx hy, rfl⟩

/-- C6 (witness): the theorem applied with cap 2 and three immediate
requests (the spec's own example shape: with cap c, the (c+1)-th queued
request starts at least 60 s after the 1st). -/
theorem c6_rate_limiter_sliding_window_witness :
    (0 < 2) ∧ (∀ d ∈ ([0, 0, 0] : List ℚ), 0 ≤ d)
    ∧ (LithuaniaFetcher.SpacedBy 2 (LithuaniaFetcher.throttleTimes 2 0 [0, 0, 0])
      ∧ List.Pairwise (· ≤ ·) (LithuaniaFetcher.throttleTimes 2 0 [0, 0, 0])
      ∧ (∀ x y, (LithuaniaFetcher.throttleTimes 2 0 [0, 0, 0]).get? 0 = some x →
          (LithuaniaFetcher.throttleTimes 2 0 [0, 0, 0]).get? (0 + 2) = some y →
          x + 60 < y)
      ∧ LithuaniaFetcher.requestCap = 180) :=
  ⟨by decide, by norm_num,
   c6_rate_limiter_sliding_window 2 (by decide) 0 [0, 0, 0] (by norm_num)⟩
